import Mathlib

/-!
# Verification of the grade-authorization / grade-mutation core (istaGm-server)

Shallow embedding of `src/model/CotesModel.js` (jury registry, level-jury
assignments, audited grade modification) together with the base result
envelope of `Model.query`.

Modelling conventions:
* Each SQL table is a Lean list of row structures; an `INSERT` appends at the
  end, `UPDATE`/`DELETE ... WHERE id = ?` map/filter over the list.
* `Model.query` never throws: it returns a `{success, data, error, metadata}`
  envelope, converting a storage fault into a `success = false` envelope with
  the fault message attached (see `src` `Model.query`).  We model the fault
  behaviour of the storage layer by a per-request oracle `St.fault`: the
  n-th executed query faults with message `m` exactly when the oracle yields
  `some m` at that position.  A run with the all-`none` oracle is a fault-free
  run.
* JavaScript runtime exceptions (`TypeError` on reading a property of
  `undefined`, the `ReferenceError` raised by the out-of-scope `i.cote`
  template interpolation) are modelled by the `Except Js` channel of the
  monad; a thrown exception aborts the computation but the database state at
  that point is preserved.
* Numbers handled by the core (grade values) are modelled as `ℚ`; `NULL`able
  columns are `Option`s.  JavaScript truthiness of ids / strings (`0`, `""`
  are falsy) is modelled explicitly by `truthyN` / `truthyS`.
* The wall clock used for `insertion.date_insert` is modelled as the ambient
  state field `DB.now` (the core never reads it back).
* Result-set ordering produced by SQL `ORDER BY` on purely decorative columns
  is not modelled (rows are produced in table order); `ORDER BY id DESC
  LIMIT 1` in `generateJuryCode`, which the logic does depend on, is modelled
  exactly (row of maximal `id`).
-/

namespace IstaGm

/-- rows of table `section` (columns used by the core). -/
structure SectionRow where
  id : Nat
  designation : String
deriving DecidableEq, Repr

/-- rows of table `agent` (only the key is used by the core logic). -/
structure AgentRow where
  id : Nat
deriving DecidableEq, Repr

/-- rows of table `etudiant` (only the key is used by the core logic). -/
structure EtudiantRow where
  id : Nat
deriving DecidableEq, Repr

/-- rows of table `niveau` (only the key is used by the core logic). -/
structure NiveauRow where
  id : Nat
deriving DecidableEq, Repr

/-- rows of table `annee` (academic year). -/
structure AnneeRow where
  id : Nat
  debut : Nat
  fin : Nat
deriving DecidableEq, Repr

/-- rows of table `jury`:
`jury(id, id_section, designation, code, id_president, id_secretaire, autorisation, id_membre)`. -/
structure JuryRow where
  id : Nat
  id_section : Nat
  designation : String
  code : String
  id_president : Option Nat
  id_secretaire : Option Nat
  id_membre : Option Nat
  autorisation : Option String
deriving DecidableEq, Repr

/-- rows of table `niveau_jury`: `niveau_jury(id, id_niveau, id_jury, id_annee)`. -/
structure NiveauJuryRow where
  id : Nat
  id_niveau : Nat
  id_jury : Nat
  id_annee : Nat
deriving DecidableEq, Repr

/-- rows of table `matiere` (columns used by the core). -/
structure MatiereRow where
  id : Nat
  id_unite : Nat
deriving DecidableEq, Repr

/-- rows of table `unite` (columns used by the core). -/
structure UniteRow where
  id : Nat
  id_promotion : Nat
deriving DecidableEq, Repr

/-- rows of table `promotion` (columns used by the core). -/
structure PromotionRow where
  id : Nat
  id_niveau : Nat
deriving DecidableEq, Repr

/-- rows of table `promotion_etudiant` (columns used by the core). -/
structure PromotionEtudiantRow where
  id_promotion : Nat
  id_adminEtudiant : Nat
  id_annee_acad : Nat
deriving DecidableEq, Repr

/-- rows of table `administratif_etudiant` (columns used by the core). -/
structure AdministratifEtudiantRow where
  id : Nat
  id_etudiant : Nat
deriving DecidableEq, Repr

/-- rows of table `fiche_cotation`:
`fiche_cotation(id, id_etudiant, id_matiere, id_annee, tp, td, examen, rattrapage)`. -/
structure FicheRow where
  id : Nat
  id_etudiant : Nat
  id_matiere : Nat
  id_annee : Nat
  tp : Option ℚ
  td : Option ℚ
  examen : Option ℚ
  rattrapage : Option ℚ
deriving DecidableEq, Repr

/-- rows of table `insertion` (the audit log):
`insertion(id, id_fiche_cotation, id_agent, cote, last_val, description, date_insert)`. -/
structure InsertionRow where
  id : Nat
  id_fiche_cotation : Nat
  id_agent : Nat
  cote : String
  last_val : Option ℚ
  description : String
  date_insert : String
deriving DecidableEq, Repr

/-- The relational database state visible to the core, plus the
auto-increment counters of the tables the core inserts into and the ambient
clock string used for `date_insert`. -/
structure DB where
  sectionTable : List SectionRow
  agent : List AgentRow
  etudiant : List EtudiantRow
  niveau : List NiveauRow
  annee : List AnneeRow
  jury : List JuryRow
  niveau_jury : List NiveauJuryRow
  matiere : List MatiereRow
  unite : List UniteRow
  promotion : List PromotionRow
  promotion_etudiant : List PromotionEtudiantRow
  administratif_etudiant : List AdministratifEtudiantRow
  fiche_cotation : List FicheRow
  insertion : List InsertionRow
  nextJuryId : Nat
  nextNiveauJuryId : Nat
  nextInsertionId : Nat
  now : String
deriving DecidableEq, Repr

/-- JavaScript runtime exceptions that can escape the model methods. -/
inductive Js
  /-- reading a property / index of `undefined` -/
  | typeError
  /-- referencing a variable that is not in scope (`i.cote` in
  `getDernieresModificationsEtudiant` / `...Matiere`) -/
  | referenceError
deriving DecidableEq, Repr

/-- The structured result envelope produced by `Model.query`,
`Model.errorResponse` and `Model.successResponse`.  `data` is `none` both for
an error envelope and for a DML ok-packet (whose payload the core never
reads); `code` is the `metadata.code` of `errorResponse` (storage-fault
envelopes carry the fault message in `error` with `code = none`). -/
structure Res (δ : Type) where
  success : Bool
  data : Option δ
  error : Option String
  code : Option Nat
deriving DecidableEq, Repr

/-- `Model.errorResponse(message, code)`. -/
def errorResponse {δ : Type} (msg : String) (code : Nat) : Res δ :=
  ⟨false, none, some msg, some code⟩

/-- The envelope `Model.query` returns when the storage layer raises: the
exception is caught and converted to a failure envelope carrying the message. -/
def faultRes {δ : Type} (msg : String) : Res δ :=
  ⟨false, none, some msg, none⟩

/-- The envelope `Model.query` returns for a row-returning query. -/
def okRows {ρ : Type} (l : List ρ) : Res (List ρ) :=
  ⟨true, some l, none, none⟩

/-- The envelope `Model.query` returns for a DML statement (the ok-packet
payload, never read by the core, is not modelled). -/
def dmlOk {δ : Type} : Res δ :=
  ⟨true, none, none, none⟩

/-- `Model.successResponse(data)`. -/
def successResponse {δ : Type} (d : δ) : Res δ :=
  ⟨true, some d, none, none⟩

/-- Re-typing of a failure envelope that a method returns verbatim from a
callee of a different row type (`return juryExists;` etc.); only used on
envelopes whose `data` is `none`. -/
def recast {δ δ' : Type} (r : Res δ) : Res δ' :=
  ⟨r.success, none, r.error, r.code⟩

/-- State threaded through one request: the remaining storage-fault oracle
and the database. -/
structure St where
  fault : Nat → Option String
  db : DB

/-- The fault-free oracle. -/
def noFault : Nat → Option String := fun _ => none

/-- The request monad: state passing plus the JavaScript exception channel.
A thrown exception short-circuits but the state reached so far is kept. -/
def M (α : Type) : Type := St → Except Js α × St

/-- monadic unit. -/
def M.pure {α : Type} (a : α) : M α := fun s => (.ok a, s)

/-- monadic bind; exceptions short-circuit, state is threaded. -/
def M.bind {α β : Type} (x : M α) (f : α → M β) : M β := fun s =>
  match x s with
  | (.ok a, s') => f a s'
  | (.error e, s') => (.error e, s')

instance : Monad M where
  pure := M.pure
  bind := M.bind

@[simp] theorem M.bind_eq {α β : Type} (x : M α) (f : α → M β) :
    x >>= f = M.bind x f := rfl

@[simp] theorem M.pure_eq {α : Type} (a : α) :
    (Pure.pure a : M α) = M.pure a := rfl

/-- Advance the fault oracle past one executed query. -/
def shiftFault (f : Nat → Option String) : Nat → Option String :=
  fun n => f (n + 1)

/-- One `this.query` executing a row-returning SELECT: consumes one oracle
position; on a fault the catch in `Model.query` yields a failure envelope and
the database is untouched. -/
def select {ρ : Type} (rows : DB → List ρ) : M (Res (List ρ)) := fun s =>
  match s.fault 0 with
  | some msg => (.ok (faultRes msg), ⟨shiftFault s.fault, s.db⟩)
  | none => (.ok (okRows (rows s.db)), ⟨shiftFault s.fault, s.db⟩)

/-- One `this.query` executing a DML statement (INSERT/UPDATE/DELETE):
consumes one oracle position; on a fault nothing is written. -/
def dml {δ : Type} (f : DB → DB) : M (Res δ) := fun s =>
  match s.fault 0 with
  | some msg => (.ok (faultRes msg), ⟨shiftFault s.fault, s.db⟩)
  | none => (.ok (dmlOk : Res δ), ⟨shiftFault s.fault, f s.db⟩)

/-- A thrown JavaScript exception. -/
def jsThrow {α : Type} (e : Js) : M α := fun s => (.error e, s)

/-- `result.data[0]` followed by field accesses: yields the first row when
the envelope carries a non-empty row list, and throws a `TypeError`
otherwise (`data` is `undefined` on a failure envelope; on an empty list the
row is `undefined` and the subsequent field access throws). -/
def index0 {ρ : Type} (r : Res (List ρ)) : M ρ := fun s =>
  match r.data with
  | some (x :: _) => (.ok x, s)
  | _ => (.error Js.typeError, s)

/-- `result.data.map(...)` and friends: yields the row list when present and
throws a `TypeError` when `data` is `undefined` (failure envelope). -/
def dataList {ρ : Type} (r : Res (List ρ)) : M (List ρ) := fun s =>
  match r.data with
  | some l => (.ok l, s)
  | none => (.error Js.typeError, s)

/-- the guard pattern `result.success && Array.isArray(result.data) &&
result.data.length === 0`. -/
def noRows {ρ : Type} (r : Res (List ρ)) : Bool :=
  r.success && match r.data with
    | some [] => true
    | _ => false

/-- the guard pattern `result.success && Array.isArray(result.data) &&
result.data.length > 0`. -/
def hasRows {ρ : Type} (r : Res (List ρ)) : Bool :=
  r.success && match r.data with
    | some (_ :: _) => true
    | _ => false

/-- JavaScript truthiness of an optional numeric id (`0` is falsy). -/
def truthyN (o : Option Nat) : Bool :=
  match o with
  | some n => n ≠ 0
  | none => false

/-- JavaScript truthiness of an optional string (`""` is falsy). -/
def truthyS (o : Option String) : Bool :=
  match o with
  | some s => s ≠ ""
  | none => false

/-- Run a computation on a database with the fault-free oracle. -/
def runDB {α : Type} (m : M α) (db : DB) : Except Js α × St :=
  m ⟨noFault, db⟩

@[simp] theorem select_noFault {ρ : Type} (rows : DB → List ρ) (db : DB) :
    select rows ⟨noFault, db⟩ = (.ok (okRows (rows db)), ⟨noFault, db⟩) := rfl

@[simp] theorem dml_noFault {δ : Type} (f : DB → DB) (db : DB) :
    dml (δ := δ) f ⟨noFault, db⟩ = (.ok (dmlOk : Res δ), ⟨noFault, f db⟩) := rfl

/-- the guarded first-row read `if (r.success && r.data.length > 0) r.data[0]`. -/
def firstRow? {ρ : Type} (r : Res (List ρ)) : Option ρ :=
  if r.success then
    match r.data with
    | some (x :: _) => some x
    | _ => none
  else none

/-- `designation.split(' ')` at the character level: split on every single
space, keeping empty fragments (so `"a  b"` gives `["a", "", "b"]` and `""`
gives `[""]`, as in JavaScript). -/
def splitSpaceAux : List Char → List Char → List (List Char)
  | [], acc => [acc.reverse]
  | c :: cs, acc =>
    if c = ' ' then acc.reverse :: splitSpaceAux cs []
    else splitSpaceAux cs (c :: acc)

/-- `designation.split(' ').map(word => word.charAt(0)).join('').toUpperCase()`. -/
def initialsOf (designation : String) : String :=
  String.mk (((splitSpaceAux designation.toList []).flatMap (fun w => w.take 1)).map
    Char.toUpper)

/-- the characters matched by the regex `\d+$` (longest all-digit suffix). -/
def trailingDigits (s : String) : List Char :=
  (s.toList.reverse.takeWhile Char.isDigit).reverse

/-- decimal value of a digit string (`parseInt(match[0], 10)`). -/
def digitsVal (cs : List Char) : Nat :=
  cs.foldl (fun acc c => acc * 10 + (c.toNat - 48)) 0

/-- `number.toString().padStart(3, '0')`. -/
def padStart3 (s : String) : String :=
  if s.length < 3 then String.mk (List.replicate (3 - s.length) '0') ++ s else s

/-- `ORDER BY id DESC LIMIT 1` over `jury` rows: the row with maximal `id`
(first such row on equal ids). -/
def maxIdJury : List JuryRow → Option JuryRow
  | [] => none
  | j :: js =>
    match maxIdJury js with
    | none => some j
    | some k => if j.id < k.id then some k else some j

/-- Output rows of the jury SELECTs (`jury j JOIN section s`); the
`LEFT JOIN agent` columns are decorative name fields the core never reads and
are not modelled. -/
structure JuryJoined where
  j : JuryRow
  s : SectionRow
deriving DecidableEq, Repr

/-- `FROM jury j JOIN section s ON j.id_section = s.id WHERE p(j)`. -/
def juryJoin (db : DB) (p : JuryRow → Bool) : List JuryJoined :=
  (db.jury.filter p).flatMap fun j =>
    (db.sectionTable.filter (fun s => s.id == j.id_section)).map fun s => ⟨j, s⟩

/-- `getAllJurys(options)`; the decorative `ORDER BY` is not modelled, the
`LIMIT ? OFFSET ?` branch is. -/
def getAllJurys (limit : Option Nat) (offset : Nat) : M (Res (List JuryJoined)) :=
  select fun db =>
    match limit with
    | none => juryJoin db (fun _ => true)
    | some l => ((juryJoin db (fun _ => true)).drop offset).take l

/-- `getJuryById(id)`. -/
def getJuryById (id : Nat) : M (Res (List JuryJoined)) :=
  M.bind (select fun db => juryJoin db (fun j => j.id == id)) fun result =>
  if noRows result then M.pure (errorResponse "Jury not found" 404)
  else M.pure result

/-- `getJuryByCode(code)`. -/
def getJuryByCode (code : String) : M (Res (List JuryJoined)) :=
  M.bind (select fun db => juryJoin db (fun j => j.code == code)) fun result =>
  if noRows result then M.pure (errorResponse "Jury not found" 404)
  else M.pure result

/-- `getJurysBySection(sectionId)`. -/
def getJurysBySection (sectionId : Nat) : M (Res (List JuryJoined)) :=
  select fun db => juryJoin db (fun j => j.id_section == sectionId)

/-- `generateJuryCode(sectionId)`. -/
def generateJuryCode (sectionId : Nat) : M String :=
  M.bind (select fun db => db.sectionTable.filter (fun s => s.id == sectionId))
    fun sectionResult =>
  let pfx :=
    match firstRow? sectionResult with
    | some s0 => initialsOf s0.designation
    | none => "JURY"
  M.bind (select fun db =>
      (maxIdJury (db.jury.filter (fun j => j.id_section == sectionId))).toList)
    fun lastJuryResult =>
  let number :=
    match firstRow? lastJuryResult with
    | some last =>
      match trailingDigits last.code with
      | [] => 1
      | ds => digitsVal ds + 1
    | none => 1
  M.pure (pfx ++ "-" ++ padStart3 (toString number))

/-- The `juryData` payload of `createJury` / `updateJury`, restricted to the
columns of table `jury`; `none` models an absent key (a present key whose
value is JavaScript-falsy is `some 0` / `some ""`). -/
structure JuryData where
  id_section : Option Nat := none
  designation : Option String := none
  code : Option String := none
  id_president : Option Nat := none
  id_secretaire : Option Nat := none
  id_membre : Option Nat := none
  autorisation : Option String := none
deriving DecidableEq, Repr

/-- `Object.keys(juryData).length === 0`. -/
def JuryData.isEmptyData (d : JuryData) : Bool :=
  d.id_section == none && d.designation == none && d.code == none &&
  d.id_president == none && d.id_secretaire == none && d.id_membre == none &&
  d.autorisation == none

/-- one iteration of the role-existence loop of `createJury` / `updateJury`
(`if (juryData[role]) { ... 'Agent for <role> not found' }`). -/
def checkAgentRole {δ : Type} (idOpt : Option Nat) (msg : String) :
    M (Option (Res δ)) :=
  if truthyN idOpt then
    M.bind (select fun db => db.agent.filter (fun a => a.id == idOpt.getD 0))
      fun agentExists =>
    if noRows agentExists then M.pure (some (errorResponse msg 404))
    else M.pure none
  else M.pure none

/-- `createJury(juryData)`. -/
def createJury (d : JuryData) : M (Res Unit) :=
  if ¬ truthyN d.id_section then M.pure (errorResponse "Section ID is required" 400) else
  if ¬ (truthyS d.designation ∧ (d.designation.getD "").trim ≠ "") then
    M.pure (errorResponse "Designation is required" 400) else
  M.bind (select fun db => db.sectionTable.filter (fun s => s.id == d.id_section.getD 0))
    fun sectionResult =>
  if noRows sectionResult then M.pure (errorResponse "Section not found" 404) else
  M.bind
    (if truthyS d.code then
      M.bind (select fun db => db.jury.filter (fun j => j.code == d.code.getD ""))
        fun codeExists =>
      if hasRows codeExists then
        M.pure (Sum.inl (errorResponse "A jury with this code already exists" 409))
      else M.pure (Sum.inr (d.code.getD ""))
    else
      M.bind (generateJuryCode (d.id_section.getD 0)) fun c => M.pure (Sum.inr c))
    fun codeRes =>
  match codeRes with
  | Sum.inl err => M.pure err
  | Sum.inr codeStr =>
  M.bind (select fun db => db.jury.filter
      (fun j => j.designation == d.designation.getD "" && j.id_section == d.id_section.getD 0))
    fun designationExists =>
  if hasRows designationExists then
    M.pure (errorResponse "A jury with this designation already exists for this section" 409) else
  M.bind (checkAgentRole d.id_president "Agent for president not found") fun e1 =>
  match e1 with
  | some err => M.pure err
  | none =>
  M.bind (checkAgentRole d.id_secretaire "Agent for secretaire not found") fun e2 =>
  match e2 with
  | some err => M.pure err
  | none =>
  M.bind (checkAgentRole d.id_membre "Agent for membre not found") fun e3 =>
  match e3 with
  | some err => M.pure err
  | none =>
  dml fun db =>
    { db with
      jury := db.jury ++
        [{ id := db.nextJuryId
           id_section := d.id_section.getD 0
           designation := d.designation.getD ""
           code := codeStr
           id_president := d.id_president
           id_secretaire := d.id_secretaire
           id_membre := d.id_membre
           autorisation := d.autorisation }]
      nextJuryId := db.nextJuryId + 1 }

/-- `updateJury(id, juryData)`. -/
def updateJury (id : Nat) (d : JuryData) : M (Res Unit) :=
  M.bind (getJuryById id) fun juryExists =>
  if juryExists.success = false then M.pure (recast juryExists) else
  if d.isEmptyData then M.pure (errorResponse "No data provided for update" 400) else
  M.bind
    (if truthyN d.id_section then
      M.bind (select fun db => db.sectionTable.filter (fun s => s.id == d.id_section.getD 0))
        fun sectionExists =>
      if noRows sectionExists then M.pure (some (errorResponse "Section not found" 404))
      else M.pure none
    else M.pure none) fun eSection =>
  match eSection with
  | some err => M.pure err
  | none =>
  M.bind
    (if truthyS d.code then
      M.bind (select fun db => db.jury.filter
          (fun j => j.code == d.code.getD "" && j.id ≠ id)) fun codeExists =>
      if hasRows codeExists then
        M.pure (some (errorResponse "A jury with this code already exists" 409))
      else M.pure none
    else M.pure none) fun eCode =>
  match eCode with
  | some err => M.pure err
  | none =>
  M.bind
    (if truthyS d.designation || truthyN d.id_section then
      M.bind (index0 juryExists) fun row =>
      let desg := if truthyS d.designation then d.designation.getD "" else row.j.designation
      let sid := if truthyN d.id_section then d.id_section.getD 0 else row.j.id_section
      M.bind (select fun db => db.jury.filter
          (fun j => j.designation == desg && j.id_section == sid && j.id ≠ id))
        fun designationExists =>
      if hasRows designationExists then
        M.pure (some (errorResponse "A jury with this designation already exists for this section" 409))
      else M.pure none
    else M.pure none) fun eDesignation =>
  match eDesignation with
  | some err => M.pure err
  | none =>
  M.bind (checkAgentRole d.id_president "Agent for president not found") fun e1 =>
  match e1 with
  | some err => M.pure err
  | none =>
  M.bind (checkAgentRole d.id_secretaire "Agent for secretaire not found") fun e2 =>
  match e2 with
  | some err => M.pure err
  | none =>
  M.bind (checkAgentRole d.id_membre "Agent for membre not found") fun e3 =>
  match e3 with
  | some err => M.pure err
  | none =>
  dml fun db =>
    { db with
      jury := db.jury.map fun j =>
        if j.id = id then
          { j with
            id_section := match d.id_section with | some v => v | none => j.id_section
            designation := match d.designation with | some v => v | none => j.designation
            code := match d.code with | some v => v | none => j.code
            id_president := match d.id_president with | some v => some v | none => j.id_president
            id_secretaire := match d.id_secretaire with | some v => some v | none => j.id_secretaire
            id_membre := match d.id_membre with | some v => some v | none => j.id_membre
            autorisation := match d.autorisation with | some v => some v | none => j.autorisation }
        else j }

/-- `deleteJury(id)`. -/
def deleteJury (id : Nat) : M (Res Unit) :=
  M.bind (getJuryById id) fun juryExists =>
  if juryExists.success = false then M.pure (recast juryExists) else
  M.bind (select fun db => (db.niveau_jury.filter (fun nj => nj.id_jury == id)).take 1)
    fun niveauJuryCheck =>
  if hasRows niveauJuryCheck then
    M.pure (errorResponse "Cannot delete jury that is assigned to levels" 400) else
  dml fun db => { db with jury := db.jury.filter (fun j => ¬ j.id == id) }

/-- Output rows of the `niveau_jury` SELECTs joining `niveau`, `jury`,
`section` and `annee` (decorative name columns not modelled). -/
structure NiveauJuryJoined where
  nj : NiveauJuryRow
  n : NiveauRow
  j : JuryRow
  s : SectionRow
  a : AnneeRow
deriving DecidableEq, Repr

/-- `FROM niveau_jury nj JOIN niveau n JOIN jury j JOIN section s JOIN annee a
WHERE p(nj)`. -/
def njJoin (db : DB) (p : NiveauJuryRow → Bool) : List NiveauJuryJoined :=
  (db.niveau_jury.filter p).flatMap fun nj =>
    (db.niveau.filter (fun n => n.id == nj.id_niveau)).flatMap fun n =>
      (db.jury.filter (fun j => j.id == nj.id_jury)).flatMap fun j =>
        (db.sectionTable.filter (fun s => s.id == j.id_section)).flatMap fun s =>
          (db.annee.filter (fun a => a.id == nj.id_annee)).map fun a =>
            ⟨nj, n, j, s, a⟩

/-- `getAllNiveauJury(options)`. -/
def getAllNiveauJury (limit : Option Nat) (offset : Nat) :
    M (Res (List NiveauJuryJoined)) :=
  select fun db =>
    match limit with
    | none => njJoin db (fun _ => true)
    | some l => ((njJoin db (fun _ => true)).drop offset).take l

/-- `getNiveauJuryById(id)`. -/
def getNiveauJuryById (id : Nat) : M (Res (List NiveauJuryJoined)) :=
  M.bind (select fun db => njJoin db (fun nj => nj.id == id)) fun result =>
  if noRows result then M.pure (errorResponse "Niveau-jury association not found" 404)
  else M.pure result

/-- Output rows of `getNiveauxByJury` (`niveau_jury` joining `niveau`, `annee`). -/
structure NiveauJuryNA where
  nj : NiveauJuryRow
  n : NiveauRow
  a : AnneeRow
deriving DecidableEq, Repr

/-- `getNiveauxByJury(juryId, anneeId)`. -/
def getNiveauxByJury (juryId : Nat) (anneeId : Option Nat) :
    M (Res (List NiveauJuryNA)) :=
  select fun db =>
    (db.niveau_jury.filter (fun nj => nj.id_jury == juryId &&
        (if truthyN anneeId then nj.id_annee == anneeId.getD 0 else true))).flatMap fun nj =>
      (db.niveau.filter (fun n => n.id == nj.id_niveau)).flatMap fun n =>
        (db.annee.filter (fun a => a.id == nj.id_annee)).map fun a => ⟨nj, n, a⟩

/-- Output rows of `getJurysByNiveau` (`niveau_jury` joining `jury`,
`section`, `annee`). -/
structure NiveauJuryJSA where
  nj : NiveauJuryRow
  j : JuryRow
  s : SectionRow
  a : AnneeRow
deriving DecidableEq, Repr

/-- `getJurysByNiveau(niveauId, anneeId)`. -/
def getJurysByNiveau (niveauId : Nat) (anneeId : Option Nat) :
    M (Res (List NiveauJuryJSA)) :=
  select fun db =>
    (db.niveau_jury.filter (fun nj => nj.id_niveau == niveauId &&
        (if truthyN anneeId then nj.id_annee == anneeId.getD 0 else true))).flatMap fun nj =>
      (db.jury.filter (fun j => j.id == nj.id_jury)).flatMap fun j =>
        (db.sectionTable.filter (fun s => s.id == j.id_section)).flatMap fun s =>
          (db.annee.filter (fun a => a.id == nj.id_annee)).map fun a => ⟨nj, j, s, a⟩

/-- `assignJuryToNiveau(niveauId, juryId, anneeId)`. -/
def assignJuryToNiveau (niveauId juryId anneeId : Nat) : M (Res Unit) :=
  M.bind (select fun db => db.niveau.filter (fun n => n.id == niveauId)) fun niveauResult =>
  if noRows niveauResult then M.pure (errorResponse "Niveau not found" 404) else
  M.bind (getJuryById juryId) fun juryResult =>
  if juryResult.success = false then M.pure (recast juryResult) else
  M.bind (select fun db => db.annee.filter (fun a => a.id == anneeId)) fun anneeResult =>
  if noRows anneeResult then M.pure (errorResponse "Année académique not found" 404) else
  M.bind (select fun db => db.niveau_jury.filter
      (fun nj => nj.id_niveau == niveauId && nj.id_jury == juryId && nj.id_annee == anneeId))
    fun existingResult =>
  if hasRows existingResult then
    M.pure (errorResponse "This jury is already assigned to this level for this academic year" 409) else
  dml fun db =>
    { db with
      niveau_jury := db.niveau_jury ++ [⟨db.nextNiveauJuryId, niveauId, juryId, anneeId⟩]
      nextNiveauJuryId := db.nextNiveauJuryId + 1 }

/-- Output rows of the full insertion SELECTs (`insertion` joining
`fiche_cotation`, `agent`, `etudiant`, `matiere`, `annee`). -/
structure InsFull where
  i : InsertionRow
  fc : FicheRow
  a : AgentRow
  e : EtudiantRow
  m : MatiereRow
  an : AnneeRow
deriving DecidableEq, Repr

/-- the join of `getAllInsertions` / `getInsertionsByAnnee` /
`getInsertionById`, filtered by `p`. -/
def insFullJoin (db : DB) (p : InsFull → Bool) : List InsFull :=
  (db.insertion.flatMap fun i =>
    (db.fiche_cotation.filter (fun fc => fc.id == i.id_fiche_cotation)).flatMap fun fc =>
      (db.agent.filter (fun a => a.id == i.id_agent)).flatMap fun a =>
        (db.etudiant.filter (fun e => e.id == fc.id_etudiant)).flatMap fun e =>
          (db.matiere.filter (fun m => m.id == fc.id_matiere)).flatMap fun m =>
            (db.annee.filter (fun an => an.id == fc.id_annee)).map fun an =>
              (⟨i, fc, a, e, m, an⟩ : InsFull)).filter p

/-- `getAllInsertions(options)`. -/
def getAllInsertions (limit : Option Nat) (offset : Nat) : M (Res (List InsFull)) :=
  select fun db =>
    match limit with
    | none => insFullJoin db (fun _ => true)
    | some l => ((insFullJoin db (fun _ => true)).drop offset).take l

/-- `getInsertionsByAnnee(id)`. -/
def getInsertionsByAnnee (id : Nat) : M (Res (List InsFull)) :=
  M.bind (select fun db => insFullJoin db (fun r => r.an.id == id)) fun result =>
  if noRows result then M.pure (errorResponse "Insertion log not found" 404)
  else M.pure result

/-- `getInsertionById(id)`. -/
def getInsertionById (id : Nat) : M (Res (List InsFull)) :=
  M.bind (select fun db => insFullJoin db (fun r => r.i.id == id)) fun result =>
  if noRows result then M.pure (errorResponse "Insertion log not found" 404)
  else M.pure result

/-- Output rows of `getInsertionsByFicheId` (`insertion` joining `agent`). -/
structure InsAgent where
  i : InsertionRow
  a : AgentRow
deriving DecidableEq, Repr

/-- `getInsertionsByFicheId(ficheId)`. -/
def getInsertionsByFicheId (ficheId : Nat) : M (Res (List InsAgent)) :=
  select fun db =>
    (db.insertion.filter (fun i => i.id_fiche_cotation == ficheId)).flatMap fun i =>
      (db.agent.filter (fun a => a.id == i.id_agent)).map fun a => ⟨i, a⟩

/-- Output rows of `getInsertionsByAgent`. -/
structure InsByAgent where
  i : InsertionRow
  fc : FicheRow
  e : EtudiantRow
  m : MatiereRow
  an : AnneeRow
deriving DecidableEq, Repr

/-- `getInsertionsByAgent(agentId, options)`. -/
def getInsertionsByAgent (agentId : Nat) (limit : Option Nat) (offset : Nat) :
    M (Res (List InsByAgent)) :=
  select fun db =>
    let rows := (db.insertion.filter (fun i => i.id_agent == agentId)).flatMap fun i =>
      (db.fiche_cotation.filter (fun fc => fc.id == i.id_fiche_cotation)).flatMap fun fc =>
        (db.etudiant.filter (fun e => e.id == fc.id_etudiant)).flatMap fun e =>
          (db.matiere.filter (fun m => m.id == fc.id_matiere)).flatMap fun m =>
            (db.annee.filter (fun an => an.id == fc.id_annee)).map fun an =>
              (⟨i, fc, e, m, an⟩ : InsByAgent)
    match limit with
    | none => rows
    | some l => (rows.drop offset).take l

/-- Output rows of the final SELECT of `getInsertionsByNiveauJury`
(`insertion` joining `fiche_cotation`, `agent`, `etudiant`, `matiere`). -/
structure InsNj where
  i : InsertionRow
  fc : FicheRow
  a : AgentRow
  e : EtudiantRow
  m : MatiereRow
deriving DecidableEq, Repr

/-- the join of the final query of `getInsertionsByNiveauJury`. -/
def insNjJoin (db : DB) (p : InsertionRow → Bool) : List InsNj :=
  (db.insertion.filter p).flatMap fun i =>
    (db.fiche_cotation.filter (fun fc => fc.id == i.id_fiche_cotation)).flatMap fun fc =>
      (db.agent.filter (fun a => a.id == i.id_agent)).flatMap fun a =>
        (db.etudiant.filter (fun e => e.id == fc.id_etudiant)).flatMap fun e =>
          (db.matiere.filter (fun m => m.id == fc.id_matiere)).map fun m =>
            ⟨i, fc, a, e, m⟩

/-- `getInsertionsByNiveauJury(niveauJuryId)`: walks the level-jury
assignment to its jury's role holders, the promotions of the level, the
students enrolled for the assignment's year, their grade sheets, and finally
the audit rows written by those role holders on those sheets. -/
def getInsertionsByNiveauJury (niveauJuryId : Nat) : M (Res (List InsNj)) :=
  M.bind (getNiveauJuryById niveauJuryId) fun niveauJuryResult =>
  if niveauJuryResult.success = false then M.pure (recast niveauJuryResult) else
  M.bind (index0 niveauJuryResult) fun niveauJury =>
  M.bind (getJuryById niveauJury.nj.id_jury) fun juryResult =>
  if juryResult.success = false then M.pure (recast juryResult) else
  M.bind (index0 juryResult) fun jury =>
  let agentIds :=
    (if truthyN jury.j.id_president then [jury.j.id_president.getD 0] else []) ++
    (if truthyN jury.j.id_secretaire then [jury.j.id_secretaire.getD 0] else []) ++
    (if truthyN jury.j.id_membre then [jury.j.id_membre.getD 0] else [])
  if agentIds.isEmpty then M.pure (errorResponse "No agents associated with this jury" 404) else
  M.bind (select fun db =>
      (db.promotion.filter (fun p => p.id_niveau == niveauJury.nj.id_niveau)).map (·.id))
    fun promotionsResult =>
  if noRows promotionsResult then
    M.pure (errorResponse "No promotions found for this niveau" 404) else
  M.bind (dataList promotionsResult) fun promotionIds =>
  M.bind (select fun db =>
      (db.promotion_etudiant.filter (fun pe =>
        promotionIds.contains pe.id_promotion &&
        pe.id_annee_acad == niveauJury.nj.id_annee)).map (·.id_adminEtudiant))
    fun etudiantsResult =>
  if noRows etudiantsResult then
    M.pure (errorResponse "No students found for these promotions in this academic year" 404) else
  M.bind (dataList etudiantsResult) fun adminIds =>
  M.bind (select fun db =>
      (db.administratif_etudiant.filter (fun ae => adminIds.contains ae.id)).map (·.id_etudiant))
    fun etudiantIdsResult =>
  if noRows etudiantIdsResult then M.pure (errorResponse "No student IDs found" 404) else
  M.bind (dataList etudiantIdsResult) fun etudiantIds =>
  M.bind (select fun db =>
      (db.fiche_cotation.filter (fun fc =>
        etudiantIds.contains fc.id_etudiant &&
        fc.id_annee == niveauJury.nj.id_annee)).map (·.id))
    fun fichesResult =>
  if noRows fichesResult then
    M.pure (errorResponse "No grade sheets found for these students in this academic year" 404) else
  M.bind (dataList fichesResult) fun ficheIds =>
  select fun db => insNjJoin db (fun i =>
    ficheIds.contains i.id_fiche_cotation && agentIds.contains i.id_agent)

/-- `removeJuryFromNiveau(niveauJuryId)`. -/
def removeJuryFromNiveau (niveauJuryId : Nat) : M (Res Unit) :=
  M.bind (getNiveauJuryById niveauJuryId) fun niveauJuryResult =>
  if niveauJuryResult.success = false then M.pure (recast niveauJuryResult) else
  M.bind (getInsertionsByNiveauJury niveauJuryId) fun cotesResult =>
  if hasRows cotesResult then
    M.pure (errorResponse "Cannot remove jury from niveau because grades have been recorded" 400) else
  dml fun db => { db with niveau_jury := db.niveau_jury.filter (fun nj => ¬ nj.id == niveauJuryId) }

/-- `validCotes.includes(cote)` for `['tp', 'td', 'examen', 'rattrapage']`. -/
def validCote (cote : String) : Bool :=
  cote == "tp" || cote == "td" || cote == "examen" || cote == "rattrapage"

/-- `fiche[cote]` for a grade-sheet row (undefined for other keys). -/
def ficheGet (f : FicheRow) (cote : String) : Option ℚ :=
  match cote with
  | "tp" => f.tp
  | "td" => f.td
  | "examen" => f.examen
  | "rattrapage" => f.rattrapage
  | _ => none

/-- `UPDATE fiche_cotation SET ${cote} = ? WHERE id = ?` applied to one row
(called only with a validated component name). -/
def setCote (f : FicheRow) (cote : String) (v : ℚ) : FicheRow :=
  match cote with
  | "tp" => { f with tp := some v }
  | "td" => { f with td := some v }
  | "examen" => { f with examen := some v }
  | "rattrapage" => { f with rattrapage := some v }
  | _ => f

/-- rendering of a grade value inside the default description string
(JavaScript number-to-string formatting is abstracted to `ℚ` printing). -/
def showQ (q : ℚ) : String := toString q

/-- `logInsertion(ficheId, agentId, cote, lastVal, description)`. -/
def logInsertion (ficheId agentId : Nat) (cote : String) (lastVal : Option ℚ)
    (description : String) : M (Res Unit) :=
  M.bind (select fun db => db.fiche_cotation.filter (fun f => f.id == ficheId))
    fun ficheResult =>
  if noRows ficheResult then M.pure (errorResponse "Fiche de cotation not found" 404) else
  M.bind (select fun db => db.agent.filter (fun a => a.id == agentId)) fun agentResult =>
  if noRows agentResult then M.pure (errorResponse "Agent not found" 404) else
  if validCote cote = false then M.pure (errorResponse "Invalid cote type" 400) else
  dml fun db =>
    { db with
      insertion := db.insertion ++
        [{ id := db.nextInsertionId
           id_fiche_cotation := ficheId
           id_agent := agentId
           cote := cote
           last_val := lastVal
           description := if description ≠ "" then description
             else "Modification de la cote " ++ cote
           date_insert := db.now }]
      nextInsertionId := db.nextInsertionId + 1 }

/-- the matiere → unite rows of the authorization chain
(`SELECT m.*, u.id_promotion FROM matiere m JOIN unite u ...`). -/
structure MatiereUnite where
  m : MatiereRow
  u : UniteRow
deriving DecidableEq, Repr

/-- `FROM matiere m JOIN unite u ON m.id_unite = u.id WHERE m.id = ?`. -/
def matiereUniteRows (db : DB) (matiereId : Nat) : List MatiereUnite :=
  (db.matiere.filter (fun m => m.id == matiereId)).flatMap fun m =>
    (db.unite.filter (fun u => u.id == m.id_unite)).map fun u => ⟨m, u⟩

/-- the jury check of `modifierCote`:
`SELECT j.id, j.autorisation FROM jury j JOIN niveau_jury nj ON j.id = nj.id_jury
WHERE nj.id_niveau = ? AND nj.id_annee = ? AND (j.id_president = ? OR
j.id_secretaire = ? OR j.id_membre = ?)`. -/
def juryCheckRows (db : DB) (niveauId anneeId agentId : Nat) : List JuryRow :=
  db.jury.flatMap fun j =>
    if j.id_president == some agentId || j.id_secretaire == some agentId ||
       j.id_membre == some agentId then
      (db.niveau_jury.filter (fun nj =>
        nj.id_jury == j.id && nj.id_niveau == niveauId && nj.id_annee == anneeId)).map
        (fun _ => j)
    else []

/-- `modifierCote(ficheId, agentId, cote, nouvelleValeur, description)`. -/
def modifierCote (ficheId agentId : Nat) (cote : String) (nouvelleValeur : ℚ)
    (description : String) : M (Res Unit) :=
  M.bind (select fun db => db.fiche_cotation.filter (fun f => f.id == ficheId))
    fun ficheResult =>
  if noRows ficheResult then M.pure (errorResponse "Fiche de cotation not found" 404) else
  M.bind (index0 ficheResult) fun fiche =>
  M.bind (select fun db => db.agent.filter (fun a => a.id == agentId)) fun agentResult =>
  if noRows agentResult then M.pure (errorResponse "Agent not found" 404) else
  if validCote cote = false then M.pure (errorResponse "Invalid cote type" 400) else
  if nouvelleValeur < 0 ∨ 20 < nouvelleValeur then
    M.pure (errorResponse "La cote doit être comprise entre 0 et 20" 400) else
  M.bind (select fun db => matiereUniteRows db fiche.id_matiere) fun matiereResult =>
  if noRows matiereResult then M.pure (errorResponse "Matière not found" 404) else
  M.bind (index0 matiereResult) fun matiere =>
  M.bind (select fun db => db.promotion.filter (fun p => p.id == matiere.u.id_promotion))
    fun promotionResult =>
  if noRows promotionResult then M.pure (errorResponse "Promotion not found" 404) else
  M.bind (index0 promotionResult) fun prom =>
  M.bind (select fun db => juryCheckRows db prom.id_niveau fiche.id_annee agentId)
    fun juryCheck =>
  if noRows juryCheck then
    M.pure (errorResponse "Agent is not authorized to modify this grade" 403) else
  M.bind (index0 juryCheck) fun jury =>
  if jury.autorisation == some "restreinte" && cote == "rattrapage" then
    M.pure (errorResponse "Ce jury n\x27est pas autorisé à modifier les rattrapages" 403) else
  let ancienneValeur := ficheGet fiche cote
  M.bind (dml fun db =>
      { db with fiche_cotation := db.fiche_cotation.map fun f =>
          if f.id = ficheId then setCote f cote nouvelleValeur else f })
    fun updateResult =>
  if updateResult.success = false then M.pure updateResult else
  let logDescription := if description ≠ "" then description
    else "Modification de la cote " ++ cote ++ " de " ++
      showQ (ancienneValeur.getD 0) ++ " à " ++ showQ nouvelleValeur
  logInsertion ficheId agentId cote ancienneValeur logDescription

/-- the `CASE WHEN j.id_president = ? THEN 'president' ... END` role label of
`verifierAutorisation`. -/
def juryRoleOf (j : JuryRow) (agentId : Nat) : Option String :=
  if j.id_president == some agentId then some "president"
  else if j.id_secretaire == some agentId then some "secretaire"
  else if j.id_membre == some agentId then some "membre"
  else none

/-- Output rows of the jury check of `verifierAutorisation` (jury columns
plus the computed role label). -/
structure JuryRole where
  j : JuryRow
  role : Option String
deriving DecidableEq, Repr

/-- the jury check query of `verifierAutorisation`. -/
def juryCheckRoleRows (db : DB) (niveauId anneeId agentId : Nat) : List JuryRole :=
  (juryCheckRows db niveauId anneeId agentId).map fun j => ⟨j, juryRoleOf j agentId⟩

/-- the `autorisations` object returned by `verifierAutorisation`. -/
structure Autorisations where
  tp : Bool
  td : Bool
  examen : Bool
  rattrapage : Bool
deriving DecidableEq, Repr

/-- the success payload of `verifierAutorisation`. -/
structure AuthInfo where
  agent_id : Nat
  fiche_id : Nat
  jury_id : Nat
  jury_designation : String
  role : Option String
  autorisations : Autorisations
  message : String
deriving DecidableEq, Repr

/-- `verifierAutorisation(agentId, ficheId)`. -/
def verifierAutorisation (agentId ficheId : Nat) : M (Res AuthInfo) :=
  M.bind (select fun db => db.fiche_cotation.filter (fun f => f.id == ficheId))
    fun ficheResult =>
  if noRows ficheResult then M.pure (errorResponse "Fiche de cotation not found" 404) else
  M.bind (index0 ficheResult) fun fiche =>
  M.bind (select fun db => db.agent.filter (fun a => a.id == agentId)) fun agentResult =>
  if noRows agentResult then M.pure (errorResponse "Agent not found" 404) else
  M.bind (select fun db => matiereUniteRows db fiche.id_matiere) fun matiereResult =>
  if noRows matiereResult then M.pure (errorResponse "Matière not found" 404) else
  M.bind (index0 matiereResult) fun matiere =>
  M.bind (select fun db => db.promotion.filter (fun p => p.id == matiere.u.id_promotion))
    fun promotionResult =>
  if noRows promotionResult then M.pure (errorResponse "Promotion not found" 404) else
  M.bind (index0 promotionResult) fun prom =>
  M.bind (select fun db => juryCheckRoleRows db prom.id_niveau fiche.id_annee agentId)
    fun juryCheck =>
  if noRows juryCheck then
    M.pure (errorResponse "Agent is not authorized to modify this grade" 403) else
  M.bind (index0 juryCheck) fun jury =>
  M.pure (successResponse
    { agent_id := agentId
      fiche_id := ficheId
      jury_id := jury.j.id
      jury_designation := jury.j.designation
      role := jury.role
      autorisations := ⟨true, true, true, jury.j.autorisation != some "restreinte"⟩
      message := "Agent is authorized to modify this grade" })

/-- `j.id_president = a.id OR j.id_secretaire = a.id OR j.id_membre = a.id`. -/
def agentInJuryRoles (j : JuryRow) (aid : Nat) : Bool :=
  j.id_president == some aid || j.id_secretaire == some aid || j.id_membre == some aid

/-- Output rows of `getStatistiquesByAgent` (decorative name columns not
modelled; result ordering not modelled). -/
structure StatAgentRow where
  agent_id : Nat
  jury_id : Option Nat
  total_modifications : Nat
  tp_modifications : Nat
  td_modifications : Nat
  examen_modifications : Nat
  rattrapage_modifications : Nat
deriving DecidableEq, Repr

/-- the pre-grouping rows of `getStatistiquesByAgent`: `insertion` joining
`agent` and `fiche_cotation` (filtered on the year), left-joined to the
juries in which the agent holds a role. -/
def statAgentBase (db : DB) (anneeId : Nat) : List (InsertionRow × Nat × Option Nat) :=
  db.insertion.flatMap fun i =>
    (db.agent.filter (fun a => a.id == i.id_agent)).flatMap fun a =>
      (db.fiche_cotation.filter (fun fc =>
          fc.id == i.id_fiche_cotation && fc.id_annee == anneeId)).flatMap fun _ =>
        match db.jury.filter (fun j => agentInJuryRoles j a.id) with
        | [] => [(i, a.id, none)]
        | js => js.map fun j => (i, a.id, some j.id)

/-- `getStatistiquesByAgent(anneeId)` (`GROUP BY a.id, j.id` with the four
per-component counts). -/
def getStatistiquesByAgent (anneeId : Nat) : M (Res (List StatAgentRow)) :=
  select fun db =>
    let base := statAgentBase db anneeId
    ((base.map fun t => (t.2.1, t.2.2)).dedup).map fun k =>
      let grp := base.filter (fun t => (t.2.1, t.2.2) == k)
      { agent_id := k.1
        jury_id := k.2
        total_modifications := grp.length
        tp_modifications := (grp.filter (fun t => t.1.cote == "tp")).length
        td_modifications := (grp.filter (fun t => t.1.cote == "td")).length
        examen_modifications := (grp.filter (fun t => t.1.cote == "examen")).length
        rattrapage_modifications := (grp.filter (fun t => t.1.cote == "rattrapage")).length }

/-- Output rows of `getStatistiquesByJury`. -/
structure StatJuryRow where
  jury_id : Nat
  total_modifications : Nat
  agents_count : Nat
  etudiants_count : Nat
  tp_modifications : Nat
  td_modifications : Nat
  examen_modifications : Nat
  rattrapage_modifications : Nat
deriving DecidableEq, Repr

/-- the pre-grouping rows of `getStatistiquesByJury`: `jury` joining
`section` and the year's `niveau_jury` rows, left-joined to the insertions of
the jury's role holders and their grade sheets, with the
`fc.id_annee = ? OR fc.id_annee IS NULL` condition applied after the joins. -/
def statJuryBase (db : DB) (anneeId : Nat) :
    List (JuryRow × Option (InsertionRow × Option FicheRow)) :=
  db.jury.flatMap fun j =>
    (db.sectionTable.filter (fun s => s.id == j.id_section)).flatMap fun _ =>
      (db.niveau_jury.filter (fun nj =>
          nj.id_jury == j.id && nj.id_annee == anneeId)).flatMap fun _ =>
        let insRows := (db.insertion.filter (fun i => agentInJuryRoles j i.id_agent)).flatMap
          fun i =>
            match db.fiche_cotation.filter (fun fc => fc.id == i.id_fiche_cotation) with
            | [] => [(i, (none : Option FicheRow))]
            | fcs => fcs.map fun fc => (i, some fc)
        let leftRows : List (Option (InsertionRow × Option FicheRow)) :=
          match insRows with
          | [] => [none]
          | rows => rows.map some
        (leftRows.filter fun r =>
          match r with
          | some (_, some fc) => fc.id_annee == anneeId
          | _ => true).map fun r => (j, r)

/-- `getStatistiquesByJury(anneeId)` (`GROUP BY j.id` with totals, distinct
counts and per-component counts). -/
def getStatistiquesByJury (anneeId : Nat) : M (Res (List StatJuryRow)) :=
  select fun db =>
    let base := statJuryBase db anneeId
    ((base.map fun t => t.1.id).dedup).map fun jid =>
      let grp := base.filter (fun t => t.1.id == jid)
      let withIns := grp.filterMap (fun t => t.2)
      { jury_id := jid
        total_modifications := withIns.length
        agents_count := ((withIns.map fun t => t.1.id_agent).dedup).length
        etudiants_count :=
          (((withIns.filterMap fun t => t.2).map fun fc => fc.id_etudiant).dedup).length
        tp_modifications := (withIns.filter (fun t => t.1.cote == "tp")).length
        td_modifications := (withIns.filter (fun t => t.1.cote == "td")).length
        examen_modifications := (withIns.filter (fun t => t.1.cote == "examen")).length
        rattrapage_modifications := (withIns.filter (fun t => t.1.cote == "rattrapage")).length }

/-- `getDernieresModificationsEtudiant(etudiantId, limit)`: the SQL template
interpolates `${i.cote}` where no variable `i` is in scope, so every call
throws a `ReferenceError` while building the statement, before any query
runs. -/
def getDernieresModificationsEtudiant (_etudiantId _limit : Nat) : M (Res (List InsFull)) :=
  jsThrow Js.referenceError

/-- `getDernieresModificationsMatiere(matiereId, anneeId, limit)`: same
out-of-scope `${i.cote}` interpolation; every call throws a
`ReferenceError` before any query runs. -/
def getDernieresModificationsMatiere (_matiereId _anneeId _limit : Nat) :
    M (Res (List InsFull)) :=
  jsThrow Js.referenceError

/-- One request against the core: every method of `CotesModel`, with its
arguments. -/
inductive Op
  | getAllJurys (limit : Option Nat) (offset : Nat)
  | getJuryById (id : Nat)
  | getJuryByCode (code : String)
  | getJurysBySection (sectionId : Nat)
  | createJury (d : JuryData)
  | updateJury (id : Nat) (d : JuryData)
  | deleteJury (id : Nat)
  | generateJuryCode (sectionId : Nat)
  | getAllNiveauJury (limit : Option Nat) (offset : Nat)
  | getNiveauJuryById (id : Nat)
  | getNiveauxByJury (juryId : Nat) (anneeId : Option Nat)
  | getJurysByNiveau (niveauId : Nat) (anneeId : Option Nat)
  | assignJuryToNiveau (niveauId juryId anneeId : Nat)
  | removeJuryFromNiveau (niveauJuryId : Nat)
  | getAllInsertions (limit : Option Nat) (offset : Nat)
  | getInsertionsByAnnee (id : Nat)
  | getInsertionById (id : Nat)
  | getInsertionsByFicheId (ficheId : Nat)
  | getInsertionsByAgent (agentId : Nat) (limit : Option Nat) (offset : Nat)
  | getInsertionsByNiveauJury (niveauJuryId : Nat)
  | logInsertion (ficheId agentId : Nat) (cote : String) (lastVal : Option ℚ)
      (description : String)
  | modifierCote (ficheId agentId : Nat) (cote : String) (v : ℚ) (description : String)
  | verifierAutorisation (agentId ficheId : Nat)
  | getStatistiquesByAgent (anneeId : Nat)
  | getStatistiquesByJury (anneeId : Nat)
  | getDernieresModificationsEtudiant (etudiantId limit : Nat)
  | getDernieresModificationsMatiere (matiereId anneeId limit : Nat)

/-- discard the (heterogeneously typed) result of a method, keeping its
effect on the state. -/
def void {α : Type} (m : M α) : M Unit := M.bind m fun _ => M.pure ()

/-- run one method of the core. -/
def Op.interp : Op → M Unit
  | .getAllJurys l o => void (IstaGm.getAllJurys l o)
  | .getJuryById i => void (IstaGm.getJuryById i)
  | .getJuryByCode c => void (IstaGm.getJuryByCode c)
  | .getJurysBySection i => void (IstaGm.getJurysBySection i)
  | .createJury d => void (IstaGm.createJury d)
  | .updateJury i d => void (IstaGm.updateJury i d)
  | .deleteJury i => void (IstaGm.deleteJury i)
  | .generateJuryCode i => void (IstaGm.generateJuryCode i)
  | .getAllNiveauJury l o => void (IstaGm.getAllNiveauJury l o)
  | .getNiveauJuryById i => void (IstaGm.getNiveauJuryById i)
  | .getNiveauxByJury i a => void (IstaGm.getNiveauxByJury i a)
  | .getJurysByNiveau i a => void (IstaGm.getJurysByNiveau i a)
  | .assignJuryToNiveau n j a => void (IstaGm.assignJuryToNiveau n j a)
  | .removeJuryFromNiveau i => void (IstaGm.removeJuryFromNiveau i)
  | .getAllInsertions l o => void (IstaGm.getAllInsertions l o)
  | .getInsertionsByAnnee i => void (IstaGm.getInsertionsByAnnee i)
  | .getInsertionById i => void (IstaGm.getInsertionById i)
  | .getInsertionsByFicheId i => void (IstaGm.getInsertionsByFicheId i)
  | .getInsertionsByAgent i l o => void (IstaGm.getInsertionsByAgent i l o)
  | .getInsertionsByNiveauJury i => void (IstaGm.getInsertionsByNiveauJury i)
  | .logInsertion f a c lv d => void (IstaGm.logInsertion f a c lv d)
  | .modifierCote f a c v d => void (IstaGm.modifierCote f a c v d)
  | .verifierAutorisation a f => void (IstaGm.verifierAutorisation a f)
  | .getStatistiquesByAgent i => void (IstaGm.getStatistiquesByAgent i)
  | .getStatistiquesByJury i => void (IstaGm.getStatistiquesByJury i)
  | .getDernieresModificationsEtudiant e l => void (IstaGm.getDernieresModificationsEtudiant e l)
  | .getDernieresModificationsMatiere m a l => void (IstaGm.getDernieresModificationsMatiere m a l)

/-- A computation only ever appends to the audit table `insertion`:
whatever the fault oracle does and whether or not a JavaScript exception is
thrown, the final `insertion` table extends the initial one. -/
def Pres {α : Type} (m : M α) : Prop :=
  ∀ s : St, ∃ t, ((m s).2).db.insertion = s.db.insertion ++ t

theorem Pres.pureM {α : Type} (a : α) : Pres (M.pure a) :=
  fun _ => ⟨[], by simp [M.pure]⟩

theorem Pres.bindM {α β : Type} {x : M α} {f : α → M β} (hx : Pres x)
    (hf : ∀ a, Pres (f a)) : Pres (M.bind x f) := by
  intro s
  obtain ⟨t1, h1⟩ := hx s
  unfold M.bind
  rcases hxs : x s with ⟨r, s'⟩
  rw [hxs] at h1
  cases r with
  | ok a =>
    obtain ⟨t2, h2⟩ := hf a s'
    refine ⟨t1 ++ t2, ?_⟩
    simp only at h1
    rw [h2, h1, List.append_assoc]
  | error e => exact ⟨t1, h1⟩

theorem Pres.selectM {ρ : Type} (rows : DB → List ρ) : Pres (select rows) := by
  intro s
  unfold select
  cases s.fault 0 <;> exact ⟨[], by simp⟩

theorem Pres.dmlM {δ : Type} (f : DB → DB)
    (hf : ∀ db, ∃ t, (f db).insertion = db.insertion ++ t) :
    Pres (dml (δ := δ) f) := by
  intro s
  unfold dml
  cases s.fault 0 with
  | none => exact ⟨(hf s.db).choose, by simpa using (hf s.db).choose_spec⟩
  | some m => exact ⟨[], by simp⟩

theorem Pres.dmlKeep {δ : Type} (f : DB → DB)
    (hf : ∀ db, (f db).insertion = db.insertion) :
    Pres (dml (δ := δ) f) :=
  Pres.dmlM f (fun db => ⟨[], by simp [hf db]⟩)

theorem Pres.throwM {α : Type} (e : Js) : Pres (jsThrow (α := α) e) :=
  fun _ => ⟨[], by simp [jsThrow]⟩

theorem Pres.index0M {ρ : Type} (r : Res (List ρ)) : Pres (index0 r) := by
  intro s
  unfold index0
  rcases r.data with _ | ⟨_, _ | _⟩ <;> exact ⟨[], by simp⟩

theorem Pres.dataListM {ρ : Type} (r : Res (List ρ)) : Pres (dataList r) := by
  intro s
  unfold dataList
  rcases r.data with _ | _ <;> exact ⟨[], by simp⟩

theorem Pres.iteM {α : Type} (c : Prop) [Decidable c] {a b : M α}
    (ha : Pres a) (hb : Pres b) : Pres (if c then a else b) := by
  split <;> assumption

theorem Pres.voidM {α : Type} {m : M α} (h : Pres m) : Pres (void m) :=
  Pres.bindM h (fun _ => Pres.pureM _)

theorem pres_checkAgentRole {δ : Type} (o : Option Nat) (msg : String) :
    Pres (checkAgentRole (δ := δ) o msg) := by
  unfold checkAgentRole
  refine Pres.iteM _ ?_ (Pres.pureM _)
  refine Pres.bindM (Pres.selectM _) fun r => ?_
  exact Pres.iteM _ (Pres.pureM _) (Pres.pureM _)

theorem pres_getJuryById (id : Nat) : Pres (getJuryById id) := by
  unfold getJuryById
  exact Pres.bindM (Pres.selectM _) fun r => Pres.iteM _ (Pres.pureM _) (Pres.pureM _)

theorem pres_getJuryByCode (code : String) : Pres (getJuryByCode code) := by
  unfold getJuryByCode
  exact Pres.bindM (Pres.selectM _) fun r => Pres.iteM _ (Pres.pureM _) (Pres.pureM _)

theorem pres_generateJuryCode (sectionId : Nat) : Pres (generateJuryCode sectionId) := by
  unfold generateJuryCode
  exact Pres.bindM (Pres.selectM _) fun r =>
    Pres.bindM (Pres.selectM _) fun r2 => Pres.pureM _

theorem pres_createJury (d : JuryData) : Pres (createJury d) := by
  unfold createJury
  refine Pres.iteM _ (Pres.pureM _) ?_
  refine Pres.iteM _ (Pres.pureM _) ?_
  refine Pres.bindM (Pres.selectM _) fun r => ?_
  refine Pres.iteM _ (Pres.pureM _) ?_
  refine Pres.bindM ?_ fun codeRes => ?_
  · refine Pres.iteM _ ?_ ?_
    · refine Pres.bindM (Pres.selectM _) fun r2 => ?_
      exact Pres.iteM _ (Pres.pureM _) (Pres.pureM _)
    · exact Pres.bindM (pres_generateJuryCode _) fun c => Pres.pureM _
  · rcases codeRes with err | codeStr
    · exact Pres.pureM _
    · refine Pres.bindM (Pres.selectM _) fun r3 => ?_
      refine Pres.iteM _ (Pres.pureM _) ?_
      refine Pres.bindM (pres_checkAgentRole _ _) fun e1 => ?_
      cases e1 with
      | some err => exact Pres.pureM _
      | none =>
        refine Pres.bindM (pres_checkAgentRole _ _) fun e2 => ?_
        cases e2 with
        | some err => exact Pres.pureM _
        | none =>
          refine Pres.bindM (pres_checkAgentRole _ _) fun e3 => ?_
          cases e3 with
          | some err => exact Pres.pureM _
          | none => exact Pres.dmlKeep _ fun db => rfl

theorem pres_updateJury (id : Nat) (d : JuryData) : Pres (updateJury id d) := by
  unfold updateJury
  refine Pres.bindM (pres_getJuryById _) fun juryExists => ?_
  refine Pres.iteM _ (Pres.pureM _) ?_
  refine Pres.iteM _ (Pres.pureM _) ?_
  refine Pres.bindM ?_ fun eSection => ?_
  · refine Pres.iteM _ ?_ (Pres.pureM _)
    refine Pres.bindM (Pres.selectM _) fun r => ?_
    exact Pres.iteM _ (Pres.pureM _) (Pres.pureM _)
  · cases eSection with
    | some err => exact Pres.pureM _
    | none =>
      refine Pres.bindM ?_ fun eCode => ?_
      · refine Pres.iteM _ ?_ (Pres.pureM _)
        refine Pres.bindM (Pres.selectM _) fun r => ?_
        exact Pres.iteM _ (Pres.pureM _) (Pres.pureM _)
      · cases eCode with
        | some err => exact Pres.pureM _
        | none =>
          refine Pres.bindM ?_ fun eDesignation => ?_
          · refine Pres.iteM _ ?_ (Pres.pureM _)
            refine Pres.bindM (Pres.index0M _) fun row => ?_
            refine Pres.bindM (Pres.selectM _) fun r => ?_
            exact Pres.iteM _ (Pres.pureM _) (Pres.pureM _)
          · cases eDesignation with
            | some err => exact Pres.pureM _
            | none =>
              refine Pres.bindM (pres_checkAgentRole _ _) fun e1 => ?_
              cases e1 with
              | some err => exact Pres.pureM _
              | none =>
                refine Pres.bindM (pres_checkAgentRole _ _) fun e2 => ?_
                cases e2 with
                | some err => exact Pres.pureM _
                | none =>
                  refine Pres.bindM (pres_checkAgentRole _ _) fun e3 => ?_
                  cases e3 with
                  | some err => exact Pres.pureM _
                  | none => exact Pres.dmlKeep _ fun db => rfl

theorem pres_deleteJury (id : Nat) : Pres (deleteJury id) := by
  unfold deleteJury
  refine Pres.bindM (pres_getJuryById _) fun juryExists => ?_
  refine Pres.iteM _ (Pres.pureM _) ?_
  refine Pres.bindM (Pres.selectM _) fun chk => ?_
  refine Pres.iteM _ (Pres.pureM _) ?_
  exact Pres.dmlKeep _ fun db => rfl

theorem pres_getNiveauJuryById (id : Nat) : Pres (getNiveauJuryById id) := by
  unfold getNiveauJuryById
  exact Pres.bindM (Pres.selectM _) fun r => Pres.iteM _ (Pres.pureM _) (Pres.pureM _)

theorem pres_assignJuryToNiveau (niveauId juryId anneeId : Nat) :
    Pres (assignJuryToNiveau niveauId juryId anneeId) := by
  unfold assignJuryToNiveau
  refine Pres.bindM (Pres.selectM _) fun r1 => ?_
  refine Pres.iteM _ (Pres.pureM _) ?_
  refine Pres.bindM (pres_getJuryById _) fun r2 => ?_
  refine Pres.iteM _ (Pres.pureM _) ?_
  refine Pres.bindM (Pres.selectM _) fun r3 => ?_
  refine Pres.iteM _ (Pres.pureM _) ?_
  refine Pres.bindM (Pres.selectM _) fun r4 => ?_
  refine Pres.iteM _ (Pres.pureM _) ?_
  exact Pres.dmlKeep _ fun db => rfl

theorem pres_getInsertionsByAnnee (id : Nat) : Pres (getInsertionsByAnnee id) := by
  unfold getInsertionsByAnnee
  exact Pres.bindM (Pres.selectM _) fun r => Pres.iteM _ (Pres.pureM _) (Pres.pureM _)

theorem pres_getInsertionById (id : Nat) : Pres (getInsertionById id) := by
  unfold getInsertionById
  exact Pres.bindM (Pres.selectM _) fun r => Pres.iteM _ (Pres.pureM _) (Pres.pureM _)

theorem pres_getInsertionsByNiveauJury (id : Nat) :
    Pres (getInsertionsByNiveauJury id) := by
  unfold getInsertionsByNiveauJury
  refine Pres.bindM (pres_getNiveauJuryById _) fun r1 => ?_
  refine Pres.iteM _ (Pres.pureM _) ?_
  refine Pres.bindM (Pres.index0M _) fun niveauJury => ?_
  refine Pres.bindM (pres_getJuryById _) fun r2 => ?_
  refine Pres.iteM _ (Pres.pureM _) ?_
  refine Pres.bindM (Pres.index0M _) fun jury => ?_
  refine Pres.iteM _ (Pres.pureM _) ?_
  refine Pres.bindM (Pres.selectM _) fun r3 => ?_
  refine Pres.iteM _ (Pres.pureM _) ?_
  refine Pres.bindM (Pres.dataListM _) fun promotionIds => ?_
  refine Pres.bindM (Pres.selectM _) fun r4 => ?_
  refine Pres.iteM _ (Pres.pureM _) ?_
  refine Pres.bindM (Pres.dataListM _) fun adminIds => ?_
  refine Pres.bindM (Pres.selectM _) fun r5 => ?_
  refine Pres.iteM _ (Pres.pureM _) ?_
  refine Pres.bindM (Pres.dataListM _) fun etudiantIds => ?_
  refine Pres.bindM (Pres.selectM _) fun r6 => ?_
  refine Pres.iteM _ (Pres.pureM _) ?_
  refine Pres.bindM (Pres.dataListM _) fun ficheIds => ?_
  exact Pres.selectM _

theorem pres_removeJuryFromNiveau (id : Nat) : Pres (removeJuryFromNiveau id) := by
  unfold removeJuryFromNiveau
  refine Pres.bindM (pres_getNiveauJuryById _) fun r1 => ?_
  refine Pres.iteM _ (Pres.pureM _) ?_
  refine Pres.bindM (pres_getInsertionsByNiveauJury _) fun r2 => ?_
  refine Pres.iteM _ (Pres.pureM _) ?_
  exact Pres.dmlKeep _ fun db => rfl

theorem pres_logInsertion (ficheId agentId : Nat) (cote : String) (lastVal : Option ℚ)
    (description : String) : Pres (logInsertion ficheId agentId cote lastVal description) := by
  unfold logInsertion
  refine Pres.bindM (Pres.selectM _) fun r1 => ?_
  refine Pres.iteM _ (Pres.pureM _) ?_
  refine Pres.bindM (Pres.selectM _) fun r2 => ?_
  refine Pres.iteM _ (Pres.pureM _) ?_
  refine Pres.iteM _ (Pres.pureM _) ?_
  exact Pres.dmlM _ fun db => ⟨_, rfl⟩

theorem pres_modifierCote (ficheId agentId : Nat) (cote : String) (v : ℚ)
    (description : String) : Pres (modifierCote ficheId agentId cote v description) := by
  unfold modifierCote
  refine Pres.bindM (Pres.selectM _) fun r1 => ?_
  refine Pres.iteM _ (Pres.pureM _) ?_
  refine Pres.bindM (Pres.index0M _) fun fiche => ?_
  refine Pres.bindM (Pres.selectM _) fun r2 => ?_
  refine Pres.iteM _ (Pres.pureM _) ?_
  refine Pres.iteM _ (Pres.pureM _) ?_
  refine Pres.iteM _ (Pres.pureM _) ?_
  refine Pres.bindM (Pres.selectM _) fun r3 => ?_
  refine Pres.iteM _ (Pres.pureM _) ?_
  refine Pres.bindM (Pres.index0M _) fun matiere => ?_
  refine Pres.bindM (Pres.selectM _) fun r4 => ?_
  refine Pres.iteM _ (Pres.pureM _) ?_
  refine Pres.bindM (Pres.index0M _) fun prom => ?_
  refine Pres.bindM (Pres.selectM _) fun r5 => ?_
  refine Pres.iteM _ (Pres.pureM _) ?_
  refine Pres.bindM (Pres.index0M _) fun jury => ?_
  refine Pres.iteM _ (Pres.pureM _) ?_
  refine Pres.bindM (Pres.dmlKeep _ fun db => rfl) fun upd => ?_
  refine Pres.iteM _ (Pres.pureM _) ?_
  exact pres_logInsertion _ _ _ _ _

theorem pres_verifierAutorisationAux (agentId ficheId : Nat) :
    Pres (verifierAutorisation agentId ficheId) := by
  unfold verifierAutorisation
  refine Pres.bindM (Pres.selectM _) fun r1 => ?_
  refine Pres.iteM _ (Pres.pureM _) ?_
  refine Pres.bindM (Pres.index0M _) fun fiche => ?_
  refine Pres.bindM (Pres.selectM _) fun r2 => ?_
  refine Pres.iteM _ (Pres.pureM _) ?_
  refine Pres.bindM (Pres.selectM _) fun r3 => ?_
  refine Pres.iteM _ (Pres.pureM _) ?_
  refine Pres.bindM (Pres.index0M _) fun matiere => ?_
  refine Pres.bindM (Pres.selectM _) fun r4 => ?_
  refine Pres.iteM _ (Pres.pureM _) ?_
  refine Pres.bindM (Pres.index0M _) fun prom => ?_
  refine Pres.bindM (Pres.selectM _) fun r5 => ?_
  refine Pres.iteM _ (Pres.pureM _) ?_
  refine Pres.bindM (Pres.index0M _) fun jury => ?_
  exact Pres.pureM _

/-- **C4**: no operation of `CotesModel` ever updates or deletes a row of the
audit table `insertion`: for every method of the class, every starting state
and every storage-fault oracle (so in particular on every reachable state),
the `insertion` table after the call is the table before the call extended by
a (possibly empty) suffix of newly appended entries — hence the set of audit
entries only grows and every pre-existing entry is byte-for-byte unchanged at
its position. -/
theorem insertion_append_only (op : Op) (s : St) :
    ∃ t, ((Op.interp op) s).2.db.insertion = s.db.insertion ++ t := by
  cases op with
  | getAllJurys l o => exact Pres.voidM (Pres.selectM _) s
  | getJuryById i => exact Pres.voidM (pres_getJuryById i) s
  | getJuryByCode c => exact Pres.voidM (pres_getJuryByCode c) s
  | getJurysBySection i => exact Pres.voidM (Pres.selectM _) s
  | createJury d => exact Pres.voidM (pres_createJury d) s
  | updateJury i d => exact Pres.voidM (pres_updateJury i d) s
  | deleteJury i => exact Pres.voidM (pres_deleteJury i) s
  | generateJuryCode i => exact Pres.voidM (pres_generateJuryCode i) s
  | getAllNiveauJury l o => exact Pres.voidM (Pres.selectM _) s
  | getNiveauJuryById i => exact Pres.voidM (pres_getNiveauJuryById i) s
  | getNiveauxByJury i a => exact Pres.voidM (Pres.selectM _) s
  | getJurysByNiveau i a => exact Pres.voidM (Pres.selectM _) s
  | assignJuryToNiveau n j a => exact Pres.voidM (pres_assignJuryToNiveau n j a) s
  | removeJuryFromNiveau i => exact Pres.voidM (pres_removeJuryFromNiveau i) s
  | getAllInsertions l o => exact Pres.voidM (Pres.selectM _) s
  | getInsertionsByAnnee i => exact Pres.voidM (pres_getInsertionsByAnnee i) s
  | getInsertionById i => exact Pres.voidM (pres_getInsertionById i) s
  | getInsertionsByFicheId i => exact Pres.voidM (Pres.selectM _) s
  | getInsertionsByAgent i l o => exact Pres.voidM (Pres.selectM _) s
  | getInsertionsByNiveauJury i => exact Pres.voidM (pres_getInsertionsByNiveauJury i) s
  | logInsertion f a c lv d => exact Pres.voidM (pres_logInsertion f a c lv d) s
  | modifierCote f a c v d => exact Pres.voidM (pres_modifierCote f a c v d) s
  | verifierAutorisation a f => exact Pres.voidM (pres_verifierAutorisationAux a f) s
  | getStatistiquesByAgent i => exact Pres.voidM (Pres.selectM _) s
  | getStatistiquesByJury i => exact Pres.voidM (Pres.selectM _) s
  | getDernieresModificationsEtudiant e l => exact Pres.voidM (Pres.throwM _) s
  | getDernieresModificationsMatiere m a l => exact Pres.voidM (Pres.throwM _) s

/-- A computation performs no write at all: the entire database is unchanged
by the run, whatever the fault oracle does and whether the run returns,
errors or throws. -/
def DbUnchanged {α : Type} (m : M α) : Prop :=
  ∀ s : St, ((m s).2).db = s.db

theorem DbUnchanged.pureU {α : Type} (a : α) : DbUnchanged (M.pure a) :=
  fun _ => rfl

theorem DbUnchanged.bindU {α β : Type} {x : M α} {f : α → M β} (hx : DbUnchanged x)
    (hf : ∀ a, DbUnchanged (f a)) : DbUnchanged (M.bind x f) := by
  intro s
  have h1 := hx s
  unfold M.bind
  rcases hxs : x s with ⟨r, s'⟩
  rw [hxs] at h1
  simp only at h1
  cases r with
  | ok a => have h2 := hf a s'; simp only [h2, h1]
  | error e => exact h1

theorem DbUnchanged.selectU {ρ : Type} (rows : DB → List ρ) :
    DbUnchanged (select rows) := by
  intro s
  unfold select
  cases s.fault 0 <;> rfl

theorem DbUnchanged.index0U {ρ : Type} (r : Res (List ρ)) : DbUnchanged (index0 r) := by
  intro s
  unfold index0
  rcases r.data with _ | ⟨_, _ | _⟩ <;> rfl

theorem DbUnchanged.iteU {α : Type} (c : Prop) [Decidable c] {a b : M α}
    (ha : DbUnchanged a) (hb : DbUnchanged b) : DbUnchanged (if c then a else b) := by
  split <;> assumption

theorem ro_verifierAutorisation (agentId ficheId : Nat) :
    DbUnchanged (verifierAutorisation agentId ficheId) := by
  unfold verifierAutorisation
  refine DbUnchanged.bindU (DbUnchanged.selectU _) fun r1 => ?_
  refine DbUnchanged.iteU _ (DbUnchanged.pureU _) ?_
  refine DbUnchanged.bindU (DbUnchanged.index0U _) fun fiche => ?_
  refine DbUnchanged.bindU (DbUnchanged.selectU _) fun r2 => ?_
  refine DbUnchanged.iteU _ (DbUnchanged.pureU _) ?_
  refine DbUnchanged.bindU (DbUnchanged.selectU _) fun r3 => ?_
  refine DbUnchanged.iteU _ (DbUnchanged.pureU _) ?_
  refine DbUnchanged.bindU (DbUnchanged.index0U _) fun matiere => ?_
  refine DbUnchanged.bindU (DbUnchanged.selectU _) fun r4 => ?_
  refine DbUnchanged.iteU _ (DbUnchanged.pureU _) ?_
  refine DbUnchanged.bindU (DbUnchanged.index0U _) fun prom => ?_
  refine DbUnchanged.bindU (DbUnchanged.selectU _) fun r5 => ?_
  refine DbUnchanged.iteU _ (DbUnchanged.pureU _) ?_
  refine DbUnchanged.bindU (DbUnchanged.index0U _) fun jury => ?_
  exact DbUnchanged.pureU _

@[simp] theorem noRows_okRows_nil {ρ : Type} : noRows (okRows ([] : List ρ)) = true := rfl

@[simp] theorem noRows_okRows_cons {ρ : Type} (x : ρ) (xs : List ρ) :
    noRows (okRows (x :: xs)) = false := rfl

@[simp] theorem hasRows_okRows_nil {ρ : Type} : hasRows (okRows ([] : List ρ)) = false := rfl

@[simp] theorem hasRows_okRows_cons {ρ : Type} (x : ρ) (xs : List ρ) :
    hasRows (okRows (x :: xs)) = true := rfl

@[simp] theorem index0_okRows_cons {ρ : Type} (x : ρ) (xs : List ρ) :
    index0 (okRows (x :: xs)) = M.pure x := rfl

@[simp] theorem dataList_okRows {ρ : Type} (l : List ρ) :
    dataList (okRows l) = M.pure l := rfl

@[simp] theorem success_okRows {ρ : Type} (l : List ρ) : (okRows l).success = true := rfl

@[simp] theorem success_errorResponse {δ : Type} (msg : String) (c : Nat) :
    (errorResponse (δ := δ) msg c).success = false := rfl

theorem firstRowq_okRows {ρ : Type} (l : List ρ) : firstRow? (okRows l) = l.head? := by
  cases l <;> rfl

theorem headq_toList {α : Type} (o : Option α) : o.toList.head? = o := by
  cases o <;> rfl

/-- What `generateJuryCode` actually computes, as a pure function of the
database: the prefix comes from the section's designation initials
(`"JURY"` when the section row is absent), and the counter is one above the
trailing number of the most recently created jury of the section (the row
with the highest `id`), whatever prefix that jury's code carries — `1` when
the section has no jury or its latest code has no trailing digits. -/
def generateJuryCodeImpl (db : DB) (sectionId : Nat) : String :=
  let pfx :=
    match (db.sectionTable.filter (fun s => s.id == sectionId)).head? with
    | some s0 => initialsOf s0.designation
    | none => "JURY"
  let number :=
    match maxIdJury (db.jury.filter (fun j => j.id_section == sectionId)) with
    | some last =>
      match trailingDigits last.code with
      | [] => 1
      | ds => digitsVal ds + 1
    | none => 1
  pfx ++ "-" ++ padStart3 (toString number)

/-- The jury-code generation rule as the specification states it (defined
from the spec's words, for comparison with the implementation): same prefix
derivation, but the counter is one above the highest number carried by an
existing jury code sharing the prefix (1 when there is none). -/
def generateJuryCodeClaimed (db : DB) (sectionId : Nat) : String :=
  let pfx :=
    match (db.sectionTable.filter (fun s => s.id == sectionId)).head? with
    | some s0 => initialsOf s0.designation
    | none => "JURY"
  let nums := (db.jury.filter
      (fun j => (pfx ++ "-").toList.isPrefixOf j.code.toList)).filterMap
    (fun j =>
      match trailingDigits j.code with
      | [] => none
      | ds => some (digitsVal ds))
  let number :=
    match nums.max? with
    | some m => m + 1
    | none => 1
  pfx ++ "-" ++ padStart3 (toString number)

theorem run_generateJuryCode (db : DB) (sectionId : Nat) :
    generateJuryCode sectionId ⟨noFault, db⟩ =
      (.ok (generateJuryCodeImpl db sectionId), ⟨noFault, db⟩) := by
  unfold generateJuryCode generateJuryCodeImpl
  simp only [M.bind, select_noFault, M.pure, firstRowq_okRows, headq_toList]

/-- section "Alpha Beta" (prefix `AB`) with two juries: the jury with code
`AB-007` was created first (`id = 1`), the one with code `AB-002` last
(`id = 2`). -/
def dbC5 : DB :=
  { sectionTable := [⟨1, "Alpha Beta"⟩]
    agent := [], etudiant := [], niveau := [], annee := []
    jury := [⟨1, 1, "Jury un", "AB-007", none, none, none, none⟩,
             ⟨2, 1, "Jury deux", "AB-002", none, none, none, none⟩]
    niveau_jury := [], matiere := [], unite := [], promotion := []
    promotion_etudiant := [], administratif_etudiant := [], fiche_cotation := []
    insertion := [], nextJuryId := 3, nextNiveauJuryId := 1, nextInsertionId := 1
    now := "" }

/-- section "Alpha Beta" with no jury at all. -/
def dbC5empty : DB :=
  { dbC5 with jury := [], nextJuryId := 1 }

/-- section "Alpha Beta" whose most recently created jury (highest `id`)
carries the highest-numbered code `AB-007`. -/
def dbC5ordered : DB :=
  { dbC5 with jury := [⟨1, 1, "Jury deux", "AB-002", none, none, none, none⟩,
                       ⟨2, 1, "Jury un", "AB-007", none, none, none, none⟩] }

/-- **C5 counterexample**: in `dbC5` the highest-numbered existing jury code
sharing the section prefix `AB` is `AB-007`, so the claimed rule ("find the
highest-numbered existing code sharing that prefix and increment it") yields
`AB-008` — but `generateJuryCode` yields `AB-003`: it looks only at the most
recently created jury of the section (`ORDER BY id DESC LIMIT 1`), here
`AB-002`, and increments its trailing number. -/
theorem generateJuryCode_claim_false :
    (generateJuryCode 1 ⟨noFault, dbC5⟩).1 = .ok "AB-003" ∧
    generateJuryCodeClaimed dbC5 1 = "AB-008" ∧
    ("AB-003" : String) ≠ "AB-008" :=
  ⟨rfl, rfl, by decide⟩

/-- **C5 (amended)**: for every section, the generated code is `PREFIX-NNN`
where `PREFIX` is the uppercased first letters of each word of the section's
designation (fallback `"JURY"` when the section row is absent) and `NNN`,
zero-padded to 3 digits, is one more than the trailing number of the code of
the section's most recently created jury (its highest-`id` row), regardless
of that code's prefix — or `001` when the section has no jury or that code
has no trailing digits.  In particular, for an empty section the first
generated code is `PREFIX-001`, and when the most recently created jury of
the section carries the highest existing code `PREFIX-007` the next
generated code is `PREFIX-008`. -/
theorem generateJuryCode_amended :
    (∀ (db : DB) (sectionId : Nat),
      (generateJuryCode sectionId ⟨noFault, db⟩).1 =
        .ok (generateJuryCodeImpl db sectionId)) ∧
    generateJuryCodeImpl dbC5empty 1 = "AB-001" ∧
    generateJuryCodeImpl dbC5ordered 1 = "AB-008" := by
  refine ⟨fun db sectionId => ?_, rfl, rfl⟩
  rw [run_generateJuryCode]

/-- **C10**: `verifierAutorisation` (the authorization engine) is read-only:
for every staff id and grade-sheet id and every starting state — including
every storage-fault oracle, and whether the call returns a success envelope,
an error envelope, or throws — the entire database (so in particular the
`jury`, `niveau_jury`, `insertion` and `fiche_cotation` tables) is identical
before and after the call. -/
theorem verifierAutorisation_read_only (agentId ficheId : Nat) (s : St) :
    ((verifierAutorisation agentId ficheId) s).2.db = s.db :=
  ro_verifierAutorisation agentId ficheId s

/-- the empty database. -/
def dbEmpty : DB :=
  { sectionTable := [], agent := [], etudiant := [], niveau := [], annee := []
    jury := [], niveau_jury := [], matiere := [], unite := [], promotion := []
    promotion_etudiant := [], administratif_etudiant := [], fiche_cotation := []
    insertion := [], nextJuryId := 1, nextNiveauJuryId := 1, nextInsertionId := 1
    now := "" }

/-- a database with one grade sheet (id 10, student 20, subject 2, year 5),
its full subject→unit→promotion→level chain (2→4→6→3), one agent (id 7) who
presides jury 1 of section 1, and that jury assigned to (level 3, year 5). -/
def dbHappy : DB :=
  { sectionTable := [⟨1, "Info"⟩]
    agent := [⟨7⟩]
    etudiant := [⟨20⟩]
    niveau := [⟨3⟩]
    annee := [⟨5, 2023, 2024⟩]
    jury := [⟨1, 1, "Jury A", "I-001", some 7, none, none, some "normale"⟩]
    niveau_jury := [⟨1, 3, 1, 5⟩]
    matiere := [⟨2, 4⟩]
    unite := [⟨4, 6⟩]
    promotion := [⟨6, 3⟩]
    promotion_etudiant := []
    administratif_etudiant := []
    fiche_cotation := [⟨10, 20, 2, 5, some 5, some 6, some 7, none⟩]
    insertion := []
    nextJuryId := 2, nextNiveauJuryId := 2, nextInsertionId := 1
    now := "2024-01-01 00:00:00" }

/-- a storage-fault oracle that fails the first query of the request. -/
def fault0 : Nat → Option String := fun n => if n = 0 then some "connection lost" else none

/-- a storage-fault oracle that fails the ninth query of the request — in a
fully authorized `modifierCote` run this is the audit `INSERT INTO insertion`
(queries 0–4 are the five checks, 5 is the grade `UPDATE`, 6–7 are
`logInsertion`'s fiche/agent re-checks, 8 is the audit INSERT). -/
def fault8 : Nat → Option String := fun n => if n = 8 then some "insert failed" else none

/-- **C9**: a storage fault at the very first query of `modifierCote` (the
`fiche_cotation` SELECT) makes the method throw a JavaScript `TypeError`
instead of returning the structured result envelope: the failure envelope's
`data` is `undefined` and the code reads `ficheResult.data[0]` after a guard
that only handles the success-and-empty case. -/
theorem modifierCote_throws_on_fault :
    (modifierCote 1 1 "tp" 10 "" ⟨fault0, dbEmpty⟩).1 = .error Js.typeError := rfl

/-- **C2**: the grade-ledger write and the audit append are *not* atomic:
on `dbHappy`, a fully authorized `modifierCote(10, 7, "tp", 12)` whose audit
`INSERT` faults (oracle `fault8`) returns a failure envelope, yet leaves the
grade sheet updated to `tp = 12` while the audit table is still empty — the
ledger write is not rolled back when the audit append fails. -/
theorem modifierCote_not_atomic :
    (modifierCote 10 7 "tp" 12 "" ⟨fault8, dbHappy⟩).1 = .ok (faultRes "insert failed") ∧
    ((modifierCote 10 7 "tp" 12 "" ⟨fault8, dbHappy⟩).2).db.fiche_cotation =
      [⟨10, 20, 2, 5, some 12, some 6, some 7, none⟩] ∧
    ((modifierCote 10 7 "tp" 12 "" ⟨fault8, dbHappy⟩).2).db.insertion = [] :=
  ⟨rfl, rfl, rfl⟩

/-- the run of `modifierCote` on an existing sheet and agent when the
component name or the value is invalid: the validation error is returned and
nothing at all is executed beyond the two existence SELECTs. -/
theorem modifierCote_invalid_run (db : DB) (ficheId agentId : Nat) (cote : String)
    (v : ℚ) (descr : String)
    (hF : db.fiche_cotation.filter (fun f => f.id == ficheId) ≠ [])
    (hA : db.agent.filter (fun a => a.id == agentId) ≠ [])
    (hBad : validCote cote = false ∨ v < 0 ∨ 20 < v) :
    modifierCote ficheId agentId cote v descr ⟨noFault, db⟩ =
      (.ok (if validCote cote then errorResponse "La cote doit être comprise entre 0 et 20" 400
            else errorResponse "Invalid cote type" 400), ⟨noFault, db⟩) := by
  obtain ⟨x, xs, hl⟩ : ∃ x xs, db.fiche_cotation.filter (fun f => f.id == ficheId) = x :: xs := by
    rcases h : db.fiche_cotation.filter (fun f => f.id == ficheId) with _ | ⟨x, xs⟩
    · exact absurd h hF
    · exact ⟨x, xs, h⟩
  obtain ⟨y, ys, ha⟩ : ∃ y ys, db.agent.filter (fun a => a.id == agentId) = y :: ys := by
    rcases h : db.agent.filter (fun a => a.id == agentId) with _ | ⟨y, ys⟩
    · exact absurd h hA
    · exact ⟨y, ys, h⟩
  unfold modifierCote
  cases hv : validCote cote with
  | false =>
    simp only [M.bind, select_noFault, hl, ha, noRows_okRows_cons, Bool.false_eq_true,
      if_false, index0_okRows_cons, M.pure, hv, if_true, Bool.true_eq_false]
  | true =>
    have hr : v < 0 ∨ 20 < v := by
      rcases hBad with h | h
      · rw [hv] at h; cases h
      · exact h
    simp only [M.bind, select_noFault, hl, ha, noRows_okRows_cons, Bool.false_eq_true,
      if_false, index0_okRows_cons, M.pure, hv, Bool.true_eq_false, if_true, if_pos hr]

/-- **C8 (amended)**: *provided the grade sheet and the staff member exist*
(the code checks their existence first and reports NotFound otherwise), a
`modifierCote` call whose component name is outside {tp, td, examen,
rattrapage} or whose value lies outside [0, 20] fails with the
InvalidArgument error (code 400 — `Invalid cote type` for a bad component,
the range message for a bad value), with zero side effects (the database is
unchanged), and before any authorization check: the same error is returned
whatever the contents of the `jury` and `niveau_jury` tables. -/
theorem modifierCote_invalid_rejected (db : DB) (ficheId agentId : Nat) (cote : String)
    (v : ℚ) (descr : String)
    (hF : db.fiche_cotation.filter (fun f => f.id == ficheId) ≠ [])
    (hA : db.agent.filter (fun a => a.id == agentId) ≠ [])
    (hBad : validCote cote = false ∨ v < 0 ∨ 20 < v) :
    (modifierCote ficheId agentId cote v descr ⟨noFault, db⟩).1 =
      .ok (if validCote cote then errorResponse "La cote doit être comprise entre 0 et 20" 400
           else errorResponse "Invalid cote type" 400) ∧
    ((modifierCote ficheId agentId cote v descr ⟨noFault, db⟩).2).db = db ∧
    (∀ (jt : List JuryRow) (njt : List NiveauJuryRow),
      (modifierCote ficheId agentId cote v descr
          ⟨noFault, { db with jury := jt, niveau_jury := njt }⟩).1 =
        (modifierCote ficheId agentId cote v descr ⟨noFault, db⟩).1) := by
  have h1 := modifierCote_invalid_run db ficheId agentId cote v descr hF hA hBad
  refine ⟨by rw [h1], by rw [h1], fun jt njt => ?_⟩
  have h2 := modifierCote_invalid_run { db with jury := jt, niveau_jury := njt }
    ficheId agentId cote v descr hF hA hBad
  rw [h1, h2]

/-- witness for the amended C8 at a concrete input: on `dbHappy` (sheet 10
and agent 7 exist) the call `modifierCote(10, 7, "tp", 25)` is rejected with
the range error, leaves the database unchanged, and does not depend on the
jury tables. -/
theorem modifierCote_invalid_rejected_witness :
    (modifierCote 10 7 "tp" 25 "" ⟨noFault, dbHappy⟩).1 =
      .ok (if validCote "tp" then errorResponse "La cote doit être comprise entre 0 et 20" 400
           else errorResponse "Invalid cote type" 400) ∧
    ((modifierCote 10 7 "tp" 25 "" ⟨noFault, dbHappy⟩).2).db = dbHappy ∧
    (∀ (jt : List JuryRow) (njt : List NiveauJuryRow),
      (modifierCote 10 7 "tp" 25 ""
          ⟨noFault, { dbHappy with jury := jt, niveau_jury := njt }⟩).1 =
        (modifierCote 10 7 "tp" 25 "" ⟨noFault, dbHappy⟩).1) :=
  modifierCote_invalid_rejected dbHappy 10 7 "tp" 25 "" (by decide) (by decide)
    (Or.inr (Or.inr (by decide)))

theorem setCote_id (f : FicheRow) (cote : String) (v : ℚ) :
    (setCote f cote v).id = f.id := by
  unfold setCote
  split <;> rfl

/-- filtering the updated `fiche_cotation` table for the updated id commutes
with the update map (the `UPDATE` does not change row ids). -/
theorem filter_update_fiche (l : List FicheRow) (ficheId : Nat) (cote : String) (v : ℚ) :
    (l.map fun f => if f.id = ficheId then setCote f cote v else f).filter
      (fun f => f.id == ficheId) =
    (l.filter (fun f => f.id == ficheId)).map
      (fun f => if f.id = ficheId then setCote f cote v else f) := by
  induction l with
  | nil => rfl
  | cons x xs ih =>
    simp only [List.map_cons, List.filter_cons]
    have hid : (((if x.id = ficheId then setCote x cote v else x).id == ficheId) : Bool) =
        ((x.id == ficheId) : Bool) := by
      split
      · rename_i h
        rw [setCote_id, h]
      · rfl
    rw [hid]
    cases hx : ((x.id == ficheId) : Bool) with
    | false => simpa using ih
    | true => simp [ih]

/-- the outcome of `logInsertion` as a pure function of the database (the
run of `logInsertion` with the fault-free oracle realizes exactly this). -/
def logInsertionPure (db : DB) (ficheId agentId : Nat) (cote : String)
    (lastVal : Option ℚ) (description : String) : Res Unit × DB :=
  match db.fiche_cotation.filter (fun f => f.id == ficheId) with
  | [] => (errorResponse "Fiche de cotation not found" 404, db)
  | _ :: _ =>
    match db.agent.filter (fun a => a.id == agentId) with
    | [] => (errorResponse "Agent not found" 404, db)
    | _ :: _ =>
      if validCote cote = false then (errorResponse "Invalid cote type" 400, db)
      else
        (dmlOk,
         { db with
           insertion := db.insertion ++
             [{ id := db.nextInsertionId
                id_fiche_cotation := ficheId
                id_agent := agentId
                cote := cote
                last_val := lastVal
                description := if description ≠ "" then description
                  else "Modification de la cote " ++ cote
                date_insert := db.now }]
           nextInsertionId := db.nextInsertionId + 1 })

theorem run_logInsertion (db : DB) (ficheId agentId : Nat) (cote : String)
    (lastVal : Option ℚ) (description : String) :
    logInsertion ficheId agentId cote lastVal description ⟨noFault, db⟩ =
      (.ok (logInsertionPure db ficheId agentId cote lastVal description).1,
       ⟨noFault, (logInsertionPure db ficheId agentId cote lastVal description).2⟩) := by
  unfold logInsertion logInsertionPure
  rcases hF : db.fiche_cotation.filter (fun f => f.id == ficheId) with _ | ⟨x, xs⟩ <;>
    rcases hA : db.agent.filter (fun a => a.id == agentId) with _ | ⟨y, ys⟩ <;>
      cases hv : validCote cote <;>
        simp only [M.bind, select_noFault, dml_noFault, hF, hA, hv, noRows_okRows_nil,
          noRows_okRows_cons, Bool.false_eq_true, Bool.true_eq_false, if_false, if_true,
          M.pure, reduceIte]

/-- the outcome of `modifierCote` as a pure function of the database (the
run of `modifierCote` with the fault-free oracle realizes exactly this):
the validation/authorization cascade, then the grade update followed by
`logInsertion` on the updated database. -/
def modifierCotePure (db : DB) (ficheId agentId : Nat) (cote : String) (v : ℚ)
    (descr : String) : Res Unit × DB :=
  match db.fiche_cotation.filter (fun f => f.id == ficheId) with
  | [] => (errorResponse "Fiche de cotation not found" 404, db)
  | fiche :: _ =>
    match db.agent.filter (fun a => a.id == agentId) with
    | [] => (errorResponse "Agent not found" 404, db)
    | _ :: _ =>
      if validCote cote = false then (errorResponse "Invalid cote type" 400, db)
      else if v < 0 ∨ 20 < v then
        (errorResponse "La cote doit être comprise entre 0 et 20" 400, db)
      else
        match matiereUniteRows db fiche.id_matiere with
        | [] => (errorResponse "Matière not found" 404, db)
        | matiere :: _ =>
          match db.promotion.filter (fun p => p.id == matiere.u.id_promotion) with
          | [] => (errorResponse "Promotion not found" 404, db)
          | prom :: _ =>
            match juryCheckRows db prom.id_niveau fiche.id_annee agentId with
            | [] => (errorResponse "Agent is not authorized to modify this grade" 403, db)
            | jury :: _ =>
              if jury.autorisation == some "restreinte" && cote == "rattrapage" then
                (errorResponse "Ce jury n\x27est pas autorisé à modifier les rattrapages" 403, db)
              else
                let ancienneValeur := ficheGet fiche cote
                let db1 := { db with fiche_cotation := db.fiche_cotation.map fun f =>
                  if f.id = ficheId then setCote f cote v else f }
                let logDescription := if descr ≠ "" then descr
                  else "Modification de la cote " ++ cote ++ " de " ++
                    showQ (ancienneValeur.getD 0) ++ " à " ++ showQ v
                logInsertionPure db1 ficheId agentId cote ancienneValeur logDescription

theorem run_modifierCote (db : DB) (ficheId agentId : Nat) (cote : String) (v : ℚ)
    (descr : String) :
    modifierCote ficheId agentId cote v descr ⟨noFault, db⟩ =
      (.ok (modifierCotePure db ficheId agentId cote v descr).1,
       ⟨noFault, (modifierCotePure db ficheId agentId cote v descr).2⟩) := by
  unfold modifierCote modifierCotePure
  rcases hF : db.fiche_cotation.filter (fun f => f.id == ficheId) with _ | ⟨fiche, fs⟩
  · simp only [M.bind, select_noFault, hF, noRows_okRows_nil, if_true, M.pure]
  rcases hA : db.agent.filter (fun a => a.id == agentId) with _ | ⟨a0, as⟩
  · simp only [M.bind, select_noFault, hF, hA, noRows_okRows_nil, noRows_okRows_cons,
      Bool.false_eq_true, if_false, index0_okRows_cons, if_true, M.pure]
  cases hv : validCote cote
  · simp only [M.bind, select_noFault, hF, hA, hv, noRows_okRows_cons, Bool.false_eq_true,
      if_false, index0_okRows_cons, M.pure, reduceIte]
  by_cases hr : v < 0 ∨ 20 < v
  · simp only [M.bind, select_noFault, hF, hA, hv, noRows_okRows_cons, Bool.false_eq_true,
      Bool.true_eq_false, if_false, index0_okRows_cons, M.pure, reduceIte, if_pos hr]
  rcases hM : matiereUniteRows db fiche.id_matiere with _ | ⟨matiere, ms⟩
  · simp only [M.bind, select_noFault, hF, hA, hv, hM, noRows_okRows_cons, noRows_okRows_nil,
      Bool.false_eq_true, Bool.true_eq_false, if_false, if_true, index0_okRows_cons, M.pure,
      reduceIte, if_neg hr]
  rcases hP : db.promotion.filter (fun p => p.id == matiere.u.id_promotion) with _ | ⟨prom, ps⟩
  · simp only [M.bind, select_noFault, hF, hA, hv, hM, hP, noRows_okRows_cons, noRows_okRows_nil,
      Bool.false_eq_true, Bool.true_eq_false, if_false, if_true, index0_okRows_cons, M.pure,
      reduceIte, if_neg hr]
  rcases hJ : juryCheckRows db prom.id_niveau fiche.id_annee agentId with _ | ⟨jury, js⟩
  · simp only [M.bind, select_noFault, hF, hA, hv, hM, hP, hJ, noRows_okRows_cons,
      noRows_okRows_nil, Bool.false_eq_true, Bool.true_eq_false, if_false, if_true,
      index0_okRows_cons, M.pure, reduceIte, if_neg hr]
  cases hRes : jury.autorisation == some "restreinte" && cote == "rattrapage"
  · simp only [M.bind, select_noFault, hF, hA, hv, hM, hP, hJ, hRes, noRows_okRows_cons,
      Bool.false_eq_true, Bool.true_eq_false, if_false, index0_okRows_cons, M.pure,
      reduceIte, if_neg hr, dml_noFault, dmlOk, run_logInsertion]
  · simp only [M.bind, select_noFault, hF, hA, hv, hM, hP, hJ, hRes, noRows_okRows_cons,
      Bool.false_eq_true, Bool.true_eq_false, if_false, if_true, index0_okRows_cons, M.pure,
      reduceIte, if_neg hr]

/-- **C6**: provided the jury exists (the `jury ⋈ section` lookup finds it),
`deleteJury` fails with the Conflict error `Cannot delete jury that is
assigned to levels` and leaves the database unchanged when at least one
`niveau_jury` row references the jury, and succeeds — removing the jury
row(s) with that id and nothing else — when no `niveau_jury` row references
it. -/
theorem deleteJury_spec (db : DB) (id : Nat)
    (r : JuryJoined) (rs : List JuryJoined)
    (hJ : juryJoin db (fun j => j.id == id) = r :: rs) :
    (db.niveau_jury.filter (fun nj => nj.id_jury == id) ≠ [] →
      deleteJury id ⟨noFault, db⟩ =
        (.ok (errorResponse "Cannot delete jury that is assigned to levels" 400),
         ⟨noFault, db⟩)) ∧
    (db.niveau_jury.filter (fun nj => nj.id_jury == id) = [] →
      deleteJury id ⟨noFault, db⟩ =
        (.ok (dmlOk : Res Unit),
         ⟨noFault, { db with jury := db.jury.filter (fun j => ¬ j.id == id) }⟩)) := by
  constructor
  · intro hNJ
    obtain ⟨nj, njs, hNJ'⟩ : ∃ nj njs,
        db.niveau_jury.filter (fun nj => nj.id_jury == id) = nj :: njs := by
      rcases h : db.niveau_jury.filter (fun nj => nj.id_jury == id) with _ | ⟨nj, njs⟩
      · exact absurd h hNJ
      · exact ⟨nj, njs, h⟩
    unfold deleteJury getJuryById
    simp only [M.bind, select_noFault, hJ, noRows_okRows_cons, Bool.false_eq_true, if_false,
      M.pure, success_okRows, Bool.true_eq_false, reduceIte, hNJ', List.take_succ_cons,
      List.take_zero, hasRows_okRows_cons, if_true]
  · intro hNJ
    unfold deleteJury getJuryById
    simp only [M.bind, select_noFault, hJ, noRows_okRows_cons, Bool.false_eq_true, if_false,
      M.pure, success_okRows, Bool.true_eq_false, reduceIte, hNJ, List.take_nil,
      hasRows_okRows_nil, dml_noFault]

/-- witness for C6 at a concrete input: in `dbC5` jury 1 exists and no
`niveau_jury` row references it, so the delete succeeds and removes exactly
the jury row with id 1. -/
theorem deleteJury_spec_witness :
    deleteJury 1 ⟨noFault, dbC5⟩ =
      (.ok (dmlOk : Res Unit),
       ⟨noFault, { dbC5 with jury := dbC5.jury.filter (fun j => ¬ j.id == 1) }⟩) :=
  (deleteJury_spec dbC5 1
    ⟨⟨1, 1, "Jury un", "AB-007", none, none, none, none⟩, ⟨1, "Alpha Beta"⟩⟩ [] rfl).2 rfl

/-- under the fault-free oracle, `getInsertionsByNiveauJury` always returns
an envelope (it never throws) and leaves the database unchanged. -/
theorem getInsByNj_total (db : DB) (njId : Nat) :
    ∃ res : Res (List InsNj),
      getInsertionsByNiveauJury njId ⟨noFault, db⟩ = (.ok res, ⟨noFault, db⟩) := by
  unfold getInsertionsByNiveauJury getNiveauJuryById getJuryById
  rcases hNJ : njJoin db (fun nj => nj.id == njId) with _ | ⟨r, rs⟩
  · simp only [M.bind, select_noFault, hNJ, noRows_okRows_nil, if_true, M.pure,
      success_errorResponse, reduceIte]
    exact ⟨_, rfl⟩
  rcases hJJ : juryJoin db (fun j => j.id == r.nj.id_jury) with _ | ⟨r2, rs2⟩
  · simp only [M.bind, select_noFault, hNJ, hJJ, noRows_okRows_cons, noRows_okRows_nil,
      Bool.false_eq_true, if_false, if_true, M.pure, index0_okRows_cons, success_okRows,
      success_errorResponse, Bool.true_eq_false, reduceIte]
    exact ⟨_, rfl⟩
  simp only [M.bind, select_noFault, hNJ, hJJ, noRows_okRows_cons, Bool.false_eq_true,
    if_false, M.pure, index0_okRows_cons, success_okRows, Bool.true_eq_false, reduceIte]
  cases hAg : ((if truthyN r2.j.id_president = true then [r2.j.id_president.getD 0] else []) ++
      (if truthyN r2.j.id_secretaire = true then [r2.j.id_secretaire.getD 0] else []) ++
      (if truthyN r2.j.id_membre = true then [r2.j.id_membre.getD 0] else [])).isEmpty with
  | true => exact ⟨_, rfl⟩
  | false =>
  simp only [M.bind, M.pure, select_noFault, dataList_okRows, index0_okRows_cons, noRows_okRows_nil,
      noRows_okRows_cons, Bool.false_eq_true, Bool.true_eq_false, reduceIte]
  rcases hPr : (db.promotion.filter
      (fun p => p.id_niveau == r.nj.id_niveau)).map PromotionRow.id with _ | ⟨p0, psx⟩
  · simp only [hPr, M.bind, M.pure, select_noFault, dataList_okRows, index0_okRows_cons, noRows_okRows_nil,
      noRows_okRows_cons, Bool.false_eq_true, Bool.true_eq_false, reduceIte]
    exact ⟨_, rfl⟩
  simp only [hPr, M.bind, M.pure, select_noFault, dataList_okRows, index0_okRows_cons, noRows_okRows_nil,
      noRows_okRows_cons, Bool.false_eq_true, Bool.true_eq_false, reduceIte]
  rcases hPe : (db.promotion_etudiant.filter (fun pe =>
      (p0 :: psx).contains pe.id_promotion &&
      pe.id_annee_acad == r.nj.id_annee)).map PromotionEtudiantRow.id_adminEtudiant
      with _ | ⟨e0, esx⟩
  · simp only [hPe, M.bind, M.pure, select_noFault, dataList_okRows, index0_okRows_cons, noRows_okRows_nil,
      noRows_okRows_cons, Bool.false_eq_true, Bool.true_eq_false, reduceIte]
    exact ⟨_, rfl⟩
  simp only [hPe, M.bind, M.pure, select_noFault, dataList_okRows, index0_okRows_cons, noRows_okRows_nil,
      noRows_okRows_cons, Bool.false_eq_true, Bool.true_eq_false, reduceIte]
  rcases hAe : (db.administratif_etudiant.filter
      (fun ae => (e0 :: esx).contains ae.id)).map AdministratifEtudiantRow.id_etudiant
      with _ | ⟨i0, isx⟩
  · simp only [hAe, M.bind, M.pure, select_noFault, dataList_okRows, index0_okRows_cons, noRows_okRows_nil,
      noRows_okRows_cons, Bool.false_eq_true, Bool.true_eq_false, reduceIte]
    exact ⟨_, rfl⟩
  simp only [hAe, M.bind, M.pure, select_noFault, dataList_okRows, index0_okRows_cons, noRows_okRows_nil,
      noRows_okRows_cons, Bool.false_eq_true, Bool.true_eq_false, reduceIte]
  rcases hFc : (db.fiche_cotation.filter (fun fc =>
      (i0 :: isx).contains fc.id_etudiant &&
      fc.id_annee == r.nj.id_annee)).map FicheRow.id with _ | ⟨f0, fsx⟩
  · simp only [hFc, M.bind, M.pure, select_noFault, dataList_okRows, index0_okRows_cons, noRows_okRows_nil,
      noRows_okRows_cons, Bool.false_eq_true, Bool.true_eq_false, reduceIte]
    exact ⟨_, rfl⟩
  simp only [hFc, M.bind, M.pure, select_noFault, dataList_okRows, index0_okRows_cons, noRows_okRows_nil,
      noRows_okRows_cons, Bool.false_eq_true, Bool.true_eq_false, reduceIte]
  exact ⟨_, rfl⟩

/-- **C7**: provided the level-jury assignment exists (the joined
`niveau_jury` lookup finds it), a fault-free `removeJuryFromNiveau` fails
with the Conflict error `Cannot remove jury from niveau because grades have
been recorded` and leaves the database unchanged exactly when the audit
trace computed by `getInsertionsByNiveauJury` — the audit rows written by
the jury's role holders on the grade sheets of the students enrolled under
that (level, year) — is a success envelope with at least one row; otherwise
it succeeds and removes exactly the `niveau_jury` row(s) with that id. -/
theorem removeJuryFromNiveau_spec (db : DB) (njId : Nat)
    (r : NiveauJuryJoined) (rs : List NiveauJuryJoined)
    (hNJ : njJoin db (fun nj => nj.id == njId) = r :: rs) :
    ∃ res : Res (List InsNj),
      getInsertionsByNiveauJury njId ⟨noFault, db⟩ = (.ok res, ⟨noFault, db⟩) ∧
      (hasRows res = true →
        removeJuryFromNiveau njId ⟨noFault, db⟩ =
          (.ok (errorResponse
              "Cannot remove jury from niveau because grades have been recorded" 400),
           ⟨noFault, db⟩)) ∧
      (hasRows res = false →
        removeJuryFromNiveau njId ⟨noFault, db⟩ =
          (.ok (dmlOk : Res Unit),
           ⟨noFault,
            { db with niveau_jury := db.niveau_jury.filter (fun nj => ¬ nj.id == njId) }⟩)) := by
  obtain ⟨res, hres⟩ := getInsByNj_total db njId
  refine ⟨res, hres, ?_, ?_⟩ <;> intro hr
  · unfold removeJuryFromNiveau getNiveauJuryById
    simp only [M.bind, select_noFault, hNJ, noRows_okRows_cons, Bool.false_eq_true, if_false,
      M.pure, success_okRows, Bool.true_eq_false, reduceIte, hres, hr, if_true]
  · unfold removeJuryFromNiveau getNiveauJuryById
    simp only [M.bind, select_noFault, hNJ, noRows_okRows_cons, Bool.false_eq_true, if_false,
      M.pure, success_okRows, Bool.true_eq_false, reduceIte, hres, hr, dml_noFault]

/-- witness for C7 at a concrete input: in `dbHappy` the assignment
`niveau_jury` 1 exists; its audit trace yields no row (the trace stops at
"no students enrolled"), so the removal succeeds and removes exactly the
assignment row. -/
theorem removeJuryFromNiveau_spec_witness :
    removeJuryFromNiveau 1 ⟨noFault, dbHappy⟩ =
      (.ok (dmlOk : Res Unit),
       ⟨noFault,
        { dbHappy with
          niveau_jury := dbHappy.niveau_jury.filter (fun nj => ¬ nj.id == 1) }⟩) := by
  obtain ⟨res, hres, -, hok⟩ :=
    removeJuryFromNiveau_spec dbHappy 1
      ⟨⟨1, 3, 1, 5⟩, ⟨3⟩, ⟨1, 1, "Jury A", "I-001", some 7, none, none, some "normale"⟩,
       ⟨1, "Info"⟩, ⟨5, 2023, 2024⟩⟩ [] rfl
  have h1 : (getInsertionsByNiveauJury 1 ⟨noFault, dbHappy⟩).1 =
      .ok (errorResponse "No students found for these promotions in this academic year" 404) :=
    rfl
  have h2 :=
    (congrArg Prod.fst hres).symm.trans h1
  have h3 := Except.ok.inj h2
  exact hok (by rw [h3]; rfl)

/-- a call "succeeds" when it returns (rather than throws) an envelope with
`success = true`. -/
def callOk {δ : Type} (out : Except Js (Res δ)) : Bool :=
  match out with
  | .ok r => r.success
  | .error _ => false

@[simp] theorem callOk_ok {δ : Type} (r : Res δ) : callOk (.ok r) = r.success := rfl

theorem logInsertionPure_eq (db : DB) (ficheId agentId : Nat) (cote : String)
    (lastVal : Option ℚ) (description : String)
    (x : FicheRow) (xs : List FicheRow)
    (hf : db.fiche_cotation.filter (fun f => f.id == ficheId) = x :: xs)
    (y : AgentRow) (ys : List AgentRow)
    (ha : db.agent.filter (fun a => a.id == agentId) = y :: ys)
    (hv : validCote cote = true) :
    logInsertionPure db ficheId agentId cote lastVal description =
      (dmlOk,
       { db with
         insertion := db.insertion ++
           [{ id := db.nextInsertionId
              id_fiche_cotation := ficheId
              id_agent := agentId
              cote := cote
              last_val := lastVal
              description := if description ≠ "" then description
                else "Modification de la cote " ++ cote
              date_insert := db.now }]
         nextInsertionId := db.nextInsertionId + 1 }) := by
  unfold logInsertionPure
  simp only [hf, ha, hv, Bool.true_eq_false, reduceIte]

/-- **C1**: assuming the grade sheet, the staff member, and the
subject→unit→promotion chain of the sheet all exist, and the component name
is one of tp/td/examen/rattrapage, a fault-free `modifierCote` call succeeds
if and only if `0 ≤ v ≤ 20`, the staff member occupies the president,
secretary or member slot of some jury assigned (via `niveau_jury`) to the
sheet's resolved level and the sheet's academic year, and either the
component is not `rattrapage` or the matched jury's (the first matching row)
`autorisation` is not `"restreinte"`. -/
theorem modifierCote_success_iff (db : DB) (ficheId agentId : Nat) (cote : String)
    (v : ℚ) (descr : String)
    (hc : cote = "tp" ∨ cote = "td" ∨ cote = "examen" ∨ cote = "rattrapage")
    (fiche : FicheRow) (fs : List FicheRow)
    (hF : db.fiche_cotation.filter (fun f => f.id == ficheId) = fiche :: fs)
    (hA : db.agent.filter (fun a => a.id == agentId) ≠ [])
    (mu : MatiereUnite) (ms : List MatiereUnite)
    (hM : matiereUniteRows db fiche.id_matiere = mu :: ms)
    (pr : PromotionRow) (ps : List PromotionRow)
    (hP : db.promotion.filter (fun p => p.id == mu.u.id_promotion) = pr :: ps) :
    callOk (modifierCote ficheId agentId cote v descr ⟨noFault, db⟩).1 = true ↔
      ((0 ≤ v ∧ v ≤ 20) ∧
       ∃ j js, juryCheckRows db pr.id_niveau fiche.id_annee agentId = j :: js ∧
         (cote ≠ "rattrapage" ∨ j.autorisation ≠ some "restreinte")) := by
  have hv : validCote cote = true := by
    rcases hc with h | h | h | h <;> simp [validCote, h]
  obtain ⟨a0, as, hA'⟩ : ∃ a0 as, db.agent.filter (fun a => a.id == agentId) = a0 :: as := by
    rcases h : db.agent.filter (fun a => a.id == agentId) with _ | ⟨a0, as⟩
    · exact absurd h hA
    · exact ⟨a0, as, h⟩
  rw [run_modifierCote, callOk_ok]
  unfold modifierCotePure
  simp only [hF, hA', hM, hP, hv, Bool.true_eq_false, reduceIte]
  by_cases hr : v < 0 ∨ 20 < v
  · rw [if_pos hr]
    simp only [success_errorResponse, Bool.false_eq_true, false_iff]
    rintro ⟨⟨h1, h2⟩, -⟩
    rcases hr with h | h
    · exact absurd h1 (not_le.mpr h)
    · exact absurd h2 (not_le.mpr h)
  · rw [if_neg hr]
    rw [not_or, not_lt, not_lt] at hr
    rcases hJ : juryCheckRows db pr.id_niveau fiche.id_annee agentId with _ | ⟨j, js⟩
    · simp only [success_errorResponse, Bool.false_eq_true, false_iff]
      rintro ⟨-, j', js', hjj, -⟩
      exact List.cons_ne_nil j' js' hjj.symm
    · cases hRes : (j.autorisation == some "restreinte" && cote == "rattrapage") with
      | true =>
        simp only [hRes, success_errorResponse, Bool.false_eq_true, if_true, false_iff]
        simp only [Bool.and_eq_true, beq_iff_eq] at hRes
        rintro ⟨-, j', js', hjj, hdisj⟩
        injection hjj with h1 h2
        subst h1
        rcases hdisj with h | h
        · exact h hRes.2
        · exact h hRes.1
      | false =>
        simp only [hRes, Bool.false_eq_true, if_false]
        have hf1 : ({ db with fiche_cotation := db.fiche_cotation.map fun f =>
            if f.id = ficheId then setCote f cote v else f } : DB).fiche_cotation.filter
              (fun f => f.id == ficheId) =
            (if fiche.id = ficheId then setCote fiche cote v else fiche) ::
              (fs.map fun f => if f.id = ficheId then setCote f cote v else f) := by
          show (db.fiche_cotation.map _).filter _ = _
          rw [filter_update_fiche, hF, List.map_cons]
        have ha1 : ({ db with fiche_cotation := db.fiche_cotation.map fun f =>
            if f.id = ficheId then setCote f cote v else f } : DB).agent.filter
              (fun a => a.id == agentId) = a0 :: as := hA'
        rw [logInsertionPure_eq _ _ _ _ _ _ _ _ hf1 _ _ ha1 hv]
        simp only [dmlOk, true_iff]
        refine ⟨⟨hr.1, hr.2⟩, j, js, rfl, ?_⟩
        by_cases hC : cote = "rattrapage"
        · subst hC
          simp only [Bool.and_eq_false_iff, beq_eq_false_iff_ne, ne_eq] at hRes
          rcases hRes with h | h
          · exact Or.inr h
          · exact absurd trivial h
        · exact Or.inl hC

/-- witness for C1 at a concrete input: on `dbHappy`, with sheet 10, agent 7
(president of the assigned jury), component `tp` and value 12, the iff holds. -/
theorem modifierCote_success_iff_witness :
    callOk (modifierCote 10 7 "tp" 12 "" ⟨noFault, dbHappy⟩).1 = true ↔
      ((0 ≤ (12 : ℚ) ∧ (12 : ℚ) ≤ 20) ∧
       ∃ j js, juryCheckRows dbHappy
           (⟨6, 3⟩ : PromotionRow).id_niveau
           (⟨10, 20, 2, 5, some 5, some 6, some 7, none⟩ : FicheRow).id_annee 7 = j :: js ∧
         (("tp" : String) ≠ "rattrapage" ∨ j.autorisation ≠ some "restreinte")) :=
  modifierCote_success_iff dbHappy 10 7 "tp" 12 "" (Or.inl rfl)
    ⟨10, 20, 2, 5, some 5, some 6, some 7, none⟩ [] rfl (by decide)
    ⟨⟨2, 4⟩, ⟨4, 6⟩⟩ [] rfl ⟨6, 3⟩ [] rfl

/-- **C3**: every fault-free `modifierCote` call that succeeds appends
exactly one new audit entry (the `insertion` table is the old one extended by
exactly one row), and that entry's stored pre-image `last_val` is the value
the modified component held on the first matching grade-sheet row immediately
before the call; the entry also records the component, the sheet and the
agent of the call. -/
theorem modifierCote_one_audit_entry (db : DB) (ficheId agentId : Nat) (cote : String)
    (v : ℚ) (descr : String)
    (hOk : callOk (modifierCote ficheId agentId cote v descr ⟨noFault, db⟩).1 = true) :
    ∃ (fiche : FicheRow) (fs : List FicheRow) (entry : InsertionRow),
      db.fiche_cotation.filter (fun f => f.id == ficheId) = fiche :: fs ∧
      ((modifierCote ficheId agentId cote v descr ⟨noFault, db⟩).2).db.insertion =
        db.insertion ++ [entry] ∧
      entry.last_val = ficheGet fiche cote ∧
      entry.cote = cote ∧
      entry.id_fiche_cotation = ficheId ∧
      entry.id_agent = agentId := by
  rw [run_modifierCote, callOk_ok] at hOk
  rw [run_modifierCote]
  unfold modifierCotePure at hOk ⊢
  rcases hF : db.fiche_cotation.filter (fun f => f.id == ficheId) with _ | ⟨fiche, fs⟩
  · rw [hF] at hOk; cases hOk
  rcases hA : db.agent.filter (fun a => a.id == agentId) with _ | ⟨a0, as⟩
  · simp only [hF, hA, success_errorResponse] at hOk; cases hOk
  cases hv : validCote cote with
  | false => simp only [hF, hA, hv, reduceIte, success_errorResponse] at hOk; cases hOk
  | true =>
  by_cases hr : v < 0 ∨ 20 < v
  · simp only [hF, hA, hv, Bool.true_eq_false, reduceIte, if_pos hr,
      success_errorResponse] at hOk; cases hOk
  rcases hM : matiereUniteRows db fiche.id_matiere with _ | ⟨mu, ms⟩
  · simp only [hF, hA, hv, hM, Bool.true_eq_false, reduceIte, if_neg hr,
      success_errorResponse] at hOk; cases hOk
  rcases hP : db.promotion.filter (fun p => p.id == mu.u.id_promotion) with _ | ⟨pr, ps⟩
  · simp only [hF, hA, hv, hM, hP, Bool.true_eq_false, reduceIte, if_neg hr,
      success_errorResponse] at hOk; cases hOk
  rcases hJ : juryCheckRows db pr.id_niveau fiche.id_annee agentId with _ | ⟨j, js⟩
  · simp only [hF, hA, hv, hM, hP, hJ, Bool.true_eq_false, reduceIte, if_neg hr,
      success_errorResponse] at hOk; cases hOk
  cases hRes : (j.autorisation == some "restreinte" && cote == "rattrapage") with
  | true =>
    simp only [hF, hA, hv, hM, hP, hJ, hRes, Bool.true_eq_false, reduceIte, if_neg hr,
      if_true, success_errorResponse] at hOk; cases hOk
  | false =>
  have hf1 : ({ db with fiche_cotation := db.fiche_cotation.map fun f =>
      if f.id = ficheId then setCote f cote v else f } : DB).fiche_cotation.filter
        (fun f => f.id == ficheId) =
      (if fiche.id = ficheId then setCote fiche cote v else fiche) ::
        (fs.map fun f => if f.id = ficheId then setCote f cote v else f) := by
    show (db.fiche_cotation.map _).filter _ = _
    rw [filter_update_fiche, hF, List.map_cons]
  have ha1 : ({ db with fiche_cotation := db.fiche_cotation.map fun f =>
      if f.id = ficheId then setCote f cote v else f } : DB).agent.filter
        (fun a => a.id == agentId) = a0 :: as := hA
  simp only [hF, hA, hv, hM, hP, hJ, hRes, Bool.true_eq_false, reduceIte, if_neg hr,
    if_false]
  rw [logInsertionPure_eq _ _ _ _ _ _ _ _ hf1 _ _ ha1 hv]
  exact ⟨fiche, fs, _, rfl, rfl, rfl, rfl, rfl, rfl⟩

/-- witness for C3 at a concrete input: the successful
`modifierCote(10, 7, "tp", 12)` on `dbHappy` appends exactly one audit entry
whose pre-image is the prior `tp` value of sheet 10. -/
theorem modifierCote_one_audit_entry_witness :
    ∃ (fiche : FicheRow) (fs : List FicheRow) (entry : InsertionRow),
      dbHappy.fiche_cotation.filter (fun f => f.id == 10) = fiche :: fs ∧
      ((modifierCote 10 7 "tp" 12 "" ⟨noFault, dbHappy⟩).2).db.insertion =
        dbHappy.insertion ++ [entry] ∧
      entry.last_val = ficheGet fiche "tp" ∧
      entry.cote = "tp" ∧
      entry.id_fiche_cotation = 10 ∧
      entry.id_agent = 7 :=
  modifierCote_one_audit_entry dbHappy 10 7 "tp" 12 "" (by decide)

/-- **C8 counterexample**: the claim as stated requires the InvalidArgument
failure *regardless of the other arguments*, but `modifierCote` checks the
sheet's and the agent's existence first: on the empty database the
out-of-range call `modifierCote(1, 1, "tp", 25)` fails with the NotFound
error `Fiche de cotation not found` (code 404), not with an InvalidArgument
(code 400) error. -/
theorem modifierCote_invalid_claim_false :
    (modifierCote 1 1 "tp" 25 "" ⟨noFault, dbEmpty⟩).1 =
      .ok (errorResponse "Fiche de cotation not found" 404) ∧
    (errorResponse (δ := Unit) "Fiche de cotation not found" 404).code = some 404 ∧
    (∀ r : Res Unit, r = errorResponse "La cote doit être comprise entre 0 et 20" 400 ∨
        r = errorResponse "Invalid cote type" 400 → r.code = some 400) ∧
    some 404 ≠ some 400 := by
  refine ⟨rfl, rfl, ?_, by decide⟩
  rintro r (rfl | rfl) <;> rfl

end IstaGm
